import Mathlib

/-!
# JPEG decode: SFC capability probe and SFC input derivation

A shallow embedding of `CODECHAL_JPEG_SFC_STATE::CheckAndInitialize` and
`CODECHAL_JPEG_SFC_STATE::UpdateInputInfo`
(`media_driver/agnostic/common/codec/hal/codechal_decode_sfc_jpeg.cpp`).

Unsigned 32-bit fields are natural numbers, with `% 2 ^ 32` wherever the C
arithmetic can wrap; the signed plane offsets are integers.  Member functions
become functions from the state before the call to a status and the state
after it.  The two member functions of the base class that the probe calls
(`IsSfcOutputSupported`, `Initialize`) are parameters.
-/

namespace JpegSfc

/-! ## Data model -/

/-- Status codes returned by the functions.  `MOS_STATUS_OTHER` stands for
any further failure code the engine initialisation may hand back. -/
inductive MOS_STATUS where
  | MOS_STATUS_SUCCESS
  | MOS_STATUS_UNKNOWN
  | MOS_STATUS_NULL_POINTER
  | MOS_STATUS_OTHER (code : Nat)
  deriving DecidableEq, Repr

/-- Chroma layouts of a JPEG picture: the seven labels the two `switch`
statements name, and `other` for every remaining value of the field (the
`default:` label). -/
inductive JpegChromaType where
  | jpegYUV400
  | jpegYUV420
  | jpegYUV422H2Y
  | jpegYUV422H4Y
  | jpegYUV444
  | jpegRGB
  | jpegBGR
  | other (raw : Nat)
  deriving DecidableEq, Repr

/-- Surface formats: the five tags the probe compares with or writes, and
`Format_Other` for every remaining tag. -/
inductive MOS_FORMAT where
  | Format_A8R8G8B8
  | Format_400P
  | Format_IMC3
  | Format_422H
  | Format_444P
  | Format_Other (raw : Nat)
  deriving DecidableEq, Repr

/-- The fields of `MOS_SURFACE` that the two functions read or write. -/
structure MOS_SURFACE where
  dwWidth : Nat
  dwHeight : Nat
  dwPitch : Nat
  Format : MOS_FORMAT
  TileType : Nat
  UPlaneOffset_iYOffset : Int
  VPlaneOffset_iYOffset : Int
  deriving DecidableEq, Repr

/-- The fields of `CodecDecodeJpegPicParams` that the probe reads. -/
structure CodecDecodeJpegPicParams where
  m_interleavedData : Bool
  m_chromaType : JpegChromaType
  m_totalScans : Nat
  deriving DecidableEq, Repr

/-- The processing parameters the probe fills in after zeroing them; the two
surface pointers are represented by the surfaces they point to. -/
structure CODECHAL_DECODE_PROCESSING_PARAMS where
  pInputSurface : MOS_SURFACE
  pOutputSurface : MOS_SURFACE
  rcInputSurfaceRegion_Width : Nat
  rcInputSurfaceRegion_Height : Nat
  rcOutputSurfaceRegion_Width : Nat
  rcOutputSurfaceRegion_Height : Nat
  deriving DecidableEq, Repr

/-- The members of `CODECHAL_JPEG_SFC_STATE` that the two functions use.
`pInputSurface` is the surface behind the pointer of that name. -/
structure CODECHAL_JPEG_SFC_STATE where
  sSfcInSurface : MOS_SURFACE
  bSfcPipeOut : Bool
  bJpegInUse : Bool
  ucJpegChromaType : JpegChromaType
  pInputSurface : MOS_SURFACE
  deriving DecidableEq, Repr

/-- Ordering-mode tags of the SFC input. -/
inductive MEDIASTATE_SFC_INPUT_ORDERING where
  | MEDIASTATE_SFC_INPUT_ORDERING_VD_8x8_JPEG
  | MEDIASTATE_SFC_INPUT_ORDERING_VD_16x16_JPEG
  | ordering_other (raw : Nat)
  deriving DecidableEq, Repr

/-- Chroma-subsampling tags of the SFC input. -/
inductive MEDIASTATE_SFC_CHROMA_SUBSAMPLING where
  | MEDIASTATE_SFC_CHROMA_SUBSAMPLING_400
  | MEDIASTATE_SFC_CHROMA_SUBSAMPLING_420
  | MEDIASTATE_SFC_CHROMA_SUBSAMPLING_422H
  | MEDIASTATE_SFC_CHROMA_SUBSAMPLING_444
  | subsampling_other (raw : Nat)
  deriving DecidableEq, Repr

/-- Pipe-mode tags of the SFC state parameters. -/
inductive MEDIASTATE_SFC_PIPE_MODE where
  | MEDIASTATE_SFC_PIPE_VD_TO_SFC
  | pipe_other (raw : Nat)
  deriving DecidableEq, Repr

/-- AVS filter-mode tags of the SFC state parameters. -/
inductive MEDIASTATE_SFC_AVS_FILTER_MODE where
  | MEDIASTATE_SFC_AVS_FILTER_5x5
  | avs_other (raw : Nat)
  deriving DecidableEq, Repr

/-- The fields of `MHW_SFC_STATE_PARAMS` that `UpdateInputInfo` writes. -/
structure MHW_SFC_STATE_PARAMS where
  sfcPipeMode : MEDIASTATE_SFC_PIPE_MODE
  dwAVSFilterMode : MEDIASTATE_SFC_AVS_FILTER_MODE
  dwVDVEInputOrderingMode : MEDIASTATE_SFC_INPUT_ORDERING
  dwInputChromaSubSampling : MEDIASTATE_SFC_CHROMA_SUBSAMPLING
  dwInputFrameWidth : Nat
  dwInputFrameHeight : Nat
  deriving DecidableEq, Repr

/-- The pipe mode `MhwSfcInterface::SFC_PIPE_MODE_VDBOX` handed to the two base
class calls. -/
inductive SFC_PIPE_MODE where
  | SFC_PIPE_MODE_VDBOX
  | SFC_PIPE_MODE_VEBOX
  deriving DecidableEq, Repr

/-! ## Arithmetic helpers -/

/-- Modelled from the spec: the macro `MOS_ALIGN_CEIL` is declared outside the
two source files; the spec describes it as rounding its first argument up to
the alignment.  It is taken in the mask form
`(n + a - 1) & ~(a - 1)` on unsigned 32-bit operands, which rounds up to a
multiple of `a` when `a` is a power of two and the sum does not wrap. -/
def MOS_ALIGN_CEIL (n a : Nat) : Nat :=
  ((n + a + (2 ^ 32 - 1)) % 2 ^ 32) &&& (((a + (2 ^ 32 - 1)) % 2 ^ 32) ^^^ (2 ^ 32 - 1))

/-- Rounding up in the words of the spec: the multiple of `a` reached by
`ceil (n / a)` steps. -/
def roundUp (n a : Nat) : Nat := (n + a - 1) / a * a

/-- Conversion of an unsigned 32-bit value to the signed 32-bit field it is
stored in (`iYOffset`). -/
def toInt32 (n : Nat) : Int :=
  if n % 2 ^ 32 < 2 ^ 31 then ((n % 2 ^ 32 : Nat) : Int) else ((n % 2 ^ 32 : Nat) : Int) - 2 ^ 32

/-- Modelled from the spec: the constant `CODECHAL_SFC_ALIGNMENT_8` (declared
outside the two source files) is the 8-pixel alignment unit. -/
def CODECHAL_SFC_ALIGNMENT_8 : Nat := 8

/-- Modelled from the spec: the constant `CODECHAL_SFC_ALIGNMENT_16` (declared
outside the two source files) is the 16-pixel alignment unit. -/
def CODECHAL_SFC_ALIGNMENT_16 : Nat := 16

/-! ## The probe: `CheckAndInitialize` -/

/-- What the probe takes from outside the class: the SKU bit `FtrSFCPipe` read
through `MEDIA_IS_SKU`, the two alignment constants, and the two base-class
member functions.  `IsSfcOutputSupported` reads the state and the processing
parameters; `Initialize` returns its status and the state it leaves. -/
structure SfcEnv where
  FtrSFCPipe : Bool
  CODECHAL_SURFACE_PITCH_ALIGNMENT : Nat
  MHW_VDBOX_MFX_UV_PLANE_ALIGNMENT_LEGACY : Nat
  IsSfcOutputSupported :
    CODECHAL_JPEG_SFC_STATE → CODECHAL_DECODE_PROCESSING_PARAMS → SFC_PIPE_MODE → Bool
  Initialize :
    CODECHAL_JPEG_SFC_STATE → CODECHAL_DECODE_PROCESSING_PARAMS → SFC_PIPE_MODE →
      MOS_STATUS × CODECHAL_JPEG_SFC_STATE

/-- The test of the outer `if` of `CheckAndInitialize` (source lines 39-43). -/
def sfcOutputCondition (env : SfcEnv) (destSurface : MOS_SURFACE)
    (picParams : CodecDecodeJpegPicParams) : Bool :=
  env.FtrSFCPipe &&
  decide (destSurface.Format = MOS_FORMAT.Format_A8R8G8B8) &&
  (picParams.m_interleavedData ||
    decide (picParams.m_chromaType = JpegChromaType.jpegYUV400)) &&
  decide (picParams.m_totalScans = 1)

/-- The closing sanity check of `CheckAndInitialize` (source lines 112-118):
with the flag clear and an RGB destination the call fails, otherwise it
returns `eStatus`, which is still `MOS_STATUS_SUCCESS`. -/
def sanityCheck (st : CODECHAL_JPEG_SFC_STATE) (destSurface : MOS_SURFACE) :
    MOS_STATUS × CODECHAL_JPEG_SFC_STATE :=
  if !st.bSfcPipeOut && decide (destSurface.Format = MOS_FORMAT.Format_A8R8G8B8) then
    (MOS_STATUS.MOS_STATUS_UNKNOWN, st)
  else
    (MOS_STATUS.MOS_STATUS_SUCCESS, st)

/-- The pseudo SFC input surface of source lines 46-79: the five plain
assignments, `bSfcPipeOut = true`, then the `switch` on the chroma layout. -/
def createSfcInSurface (env : SfcEnv) (st : CODECHAL_JPEG_SFC_STATE)
    (destSurface : MOS_SURFACE) (picParams : CodecDecodeJpegPicParams) :
    CODECHAL_JPEG_SFC_STATE :=
  let surf : MOS_SURFACE :=
    { st.sSfcInSurface with
      dwWidth := destSurface.dwWidth
      dwHeight := destSurface.dwHeight
      dwPitch := MOS_ALIGN_CEIL destSurface.dwWidth env.CODECHAL_SURFACE_PITCH_ALIGNMENT
      UPlaneOffset_iYOffset := toInt32 destSurface.dwHeight
      TileType := destSurface.TileType }
  let st1 : CODECHAL_JPEG_SFC_STATE := { st with sSfcInSurface := surf, bSfcPipeOut := true }
  match picParams.m_chromaType with
  | JpegChromaType.jpegYUV400 =>
    { st1 with sSfcInSurface := { surf with Format := MOS_FORMAT.Format_400P } }
  | JpegChromaType.jpegYUV420 =>
    { st1 with sSfcInSurface :=
        { surf with
          Format := MOS_FORMAT.Format_IMC3
          VPlaneOffset_iYOffset :=
            toInt32 (MOS_ALIGN_CEIL destSurface.dwHeight
                env.MHW_VDBOX_MFX_UV_PLANE_ALIGNMENT_LEGACY + (destSurface.dwHeight >>> 1)) } }
  | JpegChromaType.jpegYUV422H2Y
  | JpegChromaType.jpegYUV422H4Y =>
    { st1 with sSfcInSurface :=
        { surf with
          Format := MOS_FORMAT.Format_422H
          VPlaneOffset_iYOffset :=
            toInt32 (MOS_ALIGN_CEIL destSurface.dwHeight
                env.MHW_VDBOX_MFX_UV_PLANE_ALIGNMENT_LEGACY + (destSurface.dwHeight >>> 1)) } }
  | JpegChromaType.jpegYUV444
  | JpegChromaType.jpegRGB
  | JpegChromaType.jpegBGR =>
    { st1 with sSfcInSurface :=
        { surf with
          Format := MOS_FORMAT.Format_444P
          VPlaneOffset_iYOffset :=
            toInt32 (MOS_ALIGN_CEIL destSurface.dwHeight
                env.MHW_VDBOX_MFX_UV_PLANE_ALIGNMENT_LEGACY + destSurface.dwHeight) } }
  | JpegChromaType.other _ =>
    { st1 with bSfcPipeOut := false }

/-- The processing parameters of source lines 83-90, built from the pseudo
input surface and the destination surface. -/
def makeProcParams (st : CODECHAL_JPEG_SFC_STATE) (destSurface : MOS_SURFACE) :
    CODECHAL_DECODE_PROCESSING_PARAMS :=
  { pInputSurface := st.sSfcInSurface
    pOutputSurface := destSurface
    rcInputSurfaceRegion_Width := st.sSfcInSurface.dwWidth
    rcInputSurfaceRegion_Height := st.sSfcInSurface.dwHeight
    rcOutputSurfaceRegion_Width := destSurface.dwWidth
    rcOutputSurfaceRegion_Height := destSurface.dwHeight }

/-- `CODECHAL_JPEG_SFC_STATE::CheckAndInitialize`: the status returned and the
state of the object after the call. -/
def CheckAndInitialize (env : SfcEnv) (st : CODECHAL_JPEG_SFC_STATE)
    (destSurface : MOS_SURFACE) (picParams : CodecDecodeJpegPicParams) :
    MOS_STATUS × CODECHAL_JPEG_SFC_STATE :=
  if sfcOutputCondition env destSurface picParams then
    let st1 := createSfcInSurface env st destSurface picParams
    if st1.bSfcPipeOut then
      let procParams := makeProcParams st1 destSurface
      if env.IsSfcOutputSupported st1 procParams SFC_PIPE_MODE.SFC_PIPE_MODE_VDBOX then
        let st2 : CODECHAL_JPEG_SFC_STATE :=
          { st1 with bJpegInUse := true, ucJpegChromaType := picParams.m_chromaType }
        match env.Initialize st2 procParams SFC_PIPE_MODE.SFC_PIPE_MODE_VDBOX with
        | (MOS_STATUS.MOS_STATUS_SUCCESS, st3) =>
          sanityCheck { st3 with bSfcPipeOut := true } destSurface
        | (eStatus, st3) => (eStatus, st3)
      else
        sanityCheck { st1 with bSfcPipeOut := false } destSurface
    else
      sanityCheck st1 destSurface
  else
    sanityCheck st destSurface

/-! ## The input derivation: `UpdateInputInfo` -/

/-- The `switch` of `UpdateInputInfo` (source lines 134-167): the parameters
with the two tags written and the two alignment units, or `none` when the
`default:` label returns `MOS_STATUS_UNKNOWN`. -/
def updateInputInfoSwitch (ucJpegChromaType : JpegChromaType)
    (sfcStateParams : MHW_SFC_STATE_PARAMS) (widthAlignUnit heightAlignUnit : Nat) :
    Option (MHW_SFC_STATE_PARAMS × Nat × Nat) :=
  match ucJpegChromaType with
  | JpegChromaType.jpegYUV400 =>
    some ({ sfcStateParams with
            dwVDVEInputOrderingMode :=
              MEDIASTATE_SFC_INPUT_ORDERING.MEDIASTATE_SFC_INPUT_ORDERING_VD_8x8_JPEG
            dwInputChromaSubSampling :=
              MEDIASTATE_SFC_CHROMA_SUBSAMPLING.MEDIASTATE_SFC_CHROMA_SUBSAMPLING_400 },
          CODECHAL_SFC_ALIGNMENT_8, CODECHAL_SFC_ALIGNMENT_8)
  | JpegChromaType.jpegYUV420 =>
    some ({ sfcStateParams with
            dwVDVEInputOrderingMode :=
              MEDIASTATE_SFC_INPUT_ORDERING.MEDIASTATE_SFC_INPUT_ORDERING_VD_16x16_JPEG
            dwInputChromaSubSampling :=
              MEDIASTATE_SFC_CHROMA_SUBSAMPLING.MEDIASTATE_SFC_CHROMA_SUBSAMPLING_420 },
          widthAlignUnit, heightAlignUnit)
  | JpegChromaType.jpegYUV422H2Y =>
    some ({ sfcStateParams with
            dwVDVEInputOrderingMode :=
              MEDIASTATE_SFC_INPUT_ORDERING.MEDIASTATE_SFC_INPUT_ORDERING_VD_8x8_JPEG
            dwInputChromaSubSampling :=
              MEDIASTATE_SFC_CHROMA_SUBSAMPLING.MEDIASTATE_SFC_CHROMA_SUBSAMPLING_422H },
          CODECHAL_SFC_ALIGNMENT_8, CODECHAL_SFC_ALIGNMENT_8)
  | JpegChromaType.jpegYUV422H4Y =>
    some ({ sfcStateParams with
            dwVDVEInputOrderingMode :=
              MEDIASTATE_SFC_INPUT_ORDERING.MEDIASTATE_SFC_INPUT_ORDERING_VD_16x16_JPEG
            dwInputChromaSubSampling :=
              MEDIASTATE_SFC_CHROMA_SUBSAMPLING.MEDIASTATE_SFC_CHROMA_SUBSAMPLING_422H },
          widthAlignUnit, heightAlignUnit)
  | JpegChromaType.jpegYUV444
  | JpegChromaType.jpegRGB
  | JpegChromaType.jpegBGR =>
    some ({ sfcStateParams with
            dwVDVEInputOrderingMode :=
              MEDIASTATE_SFC_INPUT_ORDERING.MEDIASTATE_SFC_INPUT_ORDERING_VD_8x8_JPEG
            dwInputChromaSubSampling :=
              MEDIASTATE_SFC_CHROMA_SUBSAMPLING.MEDIASTATE_SFC_CHROMA_SUBSAMPLING_444 },
          CODECHAL_SFC_ALIGNMENT_8, CODECHAL_SFC_ALIGNMENT_8)
  | JpegChromaType.other _ => none

/-- `CODECHAL_JPEG_SFC_STATE::UpdateInputInfo`: the status returned and the
parameter record after the call.  The object itself is only read. -/
def UpdateInputInfo (st : CODECHAL_JPEG_SFC_STATE) (sfcStateParams : MHW_SFC_STATE_PARAMS) :
    MOS_STATUS × MHW_SFC_STATE_PARAMS :=
  let p0 : MHW_SFC_STATE_PARAMS :=
    { sfcStateParams with
      sfcPipeMode := MEDIASTATE_SFC_PIPE_MODE.MEDIASTATE_SFC_PIPE_VD_TO_SFC
      dwAVSFilterMode := MEDIASTATE_SFC_AVS_FILTER_MODE.MEDIASTATE_SFC_AVS_FILTER_5x5 }
  match updateInputInfoSwitch st.ucJpegChromaType p0
      CODECHAL_SFC_ALIGNMENT_16 CODECHAL_SFC_ALIGNMENT_16 with
  | none => (MOS_STATUS.MOS_STATUS_UNKNOWN, p0)
  | some (p1, widthAlignUnit, heightAlignUnit) =>
    (MOS_STATUS.MOS_STATUS_SUCCESS,
      { p1 with
        dwInputFrameWidth := MOS_ALIGN_CEIL st.pInputSurface.dwWidth widthAlignUnit
        dwInputFrameHeight := MOS_ALIGN_CEIL st.pInputSurface.dwHeight heightAlignUnit })

/-- The seven chroma layouts that the two `switch` statements name. -/
def isEnumeratedChroma : JpegChromaType → Bool
  | JpegChromaType.other _ => false
  | _ => true

/-- The state handed to `IsSfcOutputSupported`: the object after the pseudo
input surface has been written. -/
def probedState (env : SfcEnv) (st : CODECHAL_JPEG_SFC_STATE)
    (destSurface : MOS_SURFACE) (picParams : CodecDecodeJpegPicParams) :
    CODECHAL_JPEG_SFC_STATE :=
  createSfcInSurface env st destSurface picParams

/-- The processing parameters handed to `IsSfcOutputSupported` and `Initialize`. -/
def probedProcParams (env : SfcEnv) (st : CODECHAL_JPEG_SFC_STATE)
    (destSurface : MOS_SURFACE) (picParams : CodecDecodeJpegPicParams) :
    CODECHAL_DECODE_PROCESSING_PARAMS :=
  makeProcParams (createSfcInSurface env st destSurface picParams) destSurface

/-- The state handed to `Initialize`: the probed state with `bJpegInUse` set and
the chroma layout recorded. -/
def recordedState (env : SfcEnv) (st : CODECHAL_JPEG_SFC_STATE)
    (destSurface : MOS_SURFACE) (picParams : CodecDecodeJpegPicParams) :
    CODECHAL_JPEG_SFC_STATE :=
  { createSfcInSurface env st destSurface picParams with
    bJpegInUse := true, ucJpegChromaType := picParams.m_chromaType }

/-! ## The lookup table in the words of the spec -/

/-- The alignment unit the spec gives each layout: 16 pixels for 4:2:0 and the
4-sample 4:2:2 variant, 8 pixels for the others. -/
def specAlignUnit : JpegChromaType → Nat
  | JpegChromaType.jpegYUV420 => 16
  | JpegChromaType.jpegYUV422H4Y => 16
  | _ => 8

/-- The ordering mode the spec gives each layout: 16x16 for 4:2:0 and the
4-sample 4:2:2 variant, 8x8 for the others. -/
def specOrderingMode : JpegChromaType → MEDIASTATE_SFC_INPUT_ORDERING
  | JpegChromaType.jpegYUV420 =>
    MEDIASTATE_SFC_INPUT_ORDERING.MEDIASTATE_SFC_INPUT_ORDERING_VD_16x16_JPEG
  | JpegChromaType.jpegYUV422H4Y =>
    MEDIASTATE_SFC_INPUT_ORDERING.MEDIASTATE_SFC_INPUT_ORDERING_VD_16x16_JPEG
  | _ => MEDIASTATE_SFC_INPUT_ORDERING.MEDIASTATE_SFC_INPUT_ORDERING_VD_8x8_JPEG

/-- The subsampling tag the spec gives each layout: 400 for monochrome, 420
for 4:2:0, 422H for both 4:2:2 variants, 444 for 4:4:4, RGB and BGR. -/
def specSubSampling : JpegChromaType → MEDIASTATE_SFC_CHROMA_SUBSAMPLING
  | JpegChromaType.jpegYUV400 =>
    MEDIASTATE_SFC_CHROMA_SUBSAMPLING.MEDIASTATE_SFC_CHROMA_SUBSAMPLING_400
  | JpegChromaType.jpegYUV420 =>
    MEDIASTATE_SFC_CHROMA_SUBSAMPLING.MEDIASTATE_SFC_CHROMA_SUBSAMPLING_420
  | JpegChromaType.jpegYUV422H2Y =>
    MEDIASTATE_SFC_CHROMA_SUBSAMPLING.MEDIASTATE_SFC_CHROMA_SUBSAMPLING_422H
  | JpegChromaType.jpegYUV422H4Y =>
    MEDIASTATE_SFC_CHROMA_SUBSAMPLING.MEDIASTATE_SFC_CHROMA_SUBSAMPLING_422H
  | _ => MEDIASTATE_SFC_CHROMA_SUBSAMPLING.MEDIASTATE_SFC_CHROMA_SUBSAMPLING_444

/-! ## Concrete inputs used by the worked examples -/

/-- SFC state parameters with every tag outside the named ones and both frame
sizes zero. -/
def blankSfcParams : MHW_SFC_STATE_PARAMS :=
  { sfcPipeMode := MEDIASTATE_SFC_PIPE_MODE.pipe_other 0
    dwAVSFilterMode := MEDIASTATE_SFC_AVS_FILTER_MODE.avs_other 0
    dwVDVEInputOrderingMode := MEDIASTATE_SFC_INPUT_ORDERING.ordering_other 0
    dwInputChromaSubSampling := MEDIASTATE_SFC_CHROMA_SUBSAMPLING.subsampling_other 0
    dwInputFrameWidth := 0
    dwInputFrameHeight := 0 }

/-- A surface with every field zero and an unrelated format tag. -/
def blankSurface : MOS_SURFACE :=
  { dwWidth := 0, dwHeight := 0, dwPitch := 0, Format := MOS_FORMAT.Format_Other 0,
    TileType := 0, UPlaneOffset_iYOffset := 0, VPlaneOffset_iYOffset := 0 }

/-- A freshly constructed object: both flags clear, source surface 100 x 90. -/
def freshState : CODECHAL_JPEG_SFC_STATE :=
  { sSfcInSurface := blankSurface, bSfcPipeOut := false, bJpegInUse := false,
    ucJpegChromaType := JpegChromaType.jpegYUV400,
    pInputSurface := { blankSurface with dwWidth := 100, dwHeight := 90 } }

/-- An object that has recorded the layout 4:2:0 for a 100 x 90 source. -/
def recorded420State : CODECHAL_JPEG_SFC_STATE :=
  { freshState with ucJpegChromaType := JpegChromaType.jpegYUV420 }

/-- Hardware with the SFC unit, pitch alignment 128, plane alignment 2, a
predicate that accepts and an initialisation that succeeds without touching
the state. -/
def acceptingEnv : SfcEnv :=
  { FtrSFCPipe := true
    CODECHAL_SURFACE_PITCH_ALIGNMENT := 128
    MHW_VDBOX_MFX_UV_PLANE_ALIGNMENT_LEGACY := 2
    IsSfcOutputSupported := fun _ _ _ => true
    Initialize := fun s _ _ => (MOS_STATUS.MOS_STATUS_SUCCESS, s) }

/-- The same hardware with an initialisation that fails with code 2 and leaves
the state alone. -/
def failingInitEnv : SfcEnv :=
  { acceptingEnv with Initialize := fun s _ _ => (MOS_STATUS.MOS_STATUS_OTHER 2, s) }

/-- The same hardware with a predicate that refuses. -/
def refusingEnv : SfcEnv :=
  { acceptingEnv with IsSfcOutputSupported := fun _ _ _ => false }

/-- A 100 x 90 destination in the packed 32-bit RGB format. -/
def rgbDest : MOS_SURFACE :=
  { blankSurface with dwWidth := 100, dwHeight := 90, Format := MOS_FORMAT.Format_A8R8G8B8 }

/-- A 100 x 90 destination in another format. -/
def otherDest : MOS_SURFACE :=
  { blankSurface with dwWidth := 100, dwHeight := 90, Format := MOS_FORMAT.Format_Other 7 }

/-- An interleaved single-scan 4:2:0 picture. -/
def pic420 : CodecDecodeJpegPicParams :=
  { m_interleavedData := true, m_chromaType := JpegChromaType.jpegYUV420, m_totalScans := 1 }

/-- An interleaved 4:2:0 picture in two scans. -/
def pic420TwoScans : CodecDecodeJpegPicParams :=
  { m_interleavedData := true, m_chromaType := JpegChromaType.jpegYUV420, m_totalScans := 2 }

/-- A non-interleaved single-scan 4:2:0 picture. -/
def pic420Planar : CodecDecodeJpegPicParams :=
  { m_interleavedData := false, m_chromaType := JpegChromaType.jpegYUV420, m_totalScans := 1 }

end JpegSfc

/-!
# Hardware filters and their factory

A shallow embedding of the classes of
`media_driver_next/agnostic/common/vp/hal/feature_manager/hw_filter.h`.  An
object is a record that carries the class it was constructed as; a virtual
call dispatches on that class.  `push_back` on the parameter vector is an
append at the end of a list.
-/

namespace vp

open JpegSfc (MOS_STATUS)

/-! ## Data model -/

/-- The enumeration `EngineType`; `NumOfEngineType` is its count, not a type. -/
inductive EngineType where
  | EngineTypeInvalid
  | EngineTypeVebox
  | EngineTypeSfc
  | EngineTypeRender
  deriving DecidableEq, Repr

/-- The three bits of `VP_EXECUTE_CAPS` that the filters test. -/
structure VP_EXECUTE_CAPS where
  bSfcCsc : Bool
  bSfcRotMir : Bool
  bSfcScaling : Bool
  deriving DecidableEq, Repr

/-- The argument of `ConfigCscParam`: the capability bits and the rest of the
record, which only the parameter constructor reads. -/
structure HW_FILTER_CSC_PARAM where
  vpExecuteCaps : VP_EXECUTE_CAPS
  payload : Nat
  deriving DecidableEq, Repr

/-- The argument of `ConfigRotMirParam`. -/
structure HW_FILTER_ROT_MIR_PARAM where
  vpExecuteCaps : VP_EXECUTE_CAPS
  payload : Nat
  deriving DecidableEq, Repr

/-- The argument of `ConfigScalingParam`. -/
structure HW_FILTER_SCALING_PARAM where
  vpExecuteCaps : VP_EXECUTE_CAPS
  payload : Nat
  deriving DecidableEq, Repr

/-- A packet parameter object, identified by the address the constructor
returned. -/
structure VpPacketParameter where
  handle : Nat
  deriving DecidableEq, Repr

/-- The structure `PACKET_PARAMS`: the engine type (`Type` in the source) and
the vector of parameter objects. -/
structure PACKET_PARAMS where
  Type_ : EngineType
  Params : List VpPacketParameter
  deriving DecidableEq, Repr

/-- The structure `HW_FILTER_PARAMS`, of which the factory reads the engine
type (`Type` in the source). -/
structure HW_FILTER_PARAMS where
  Type_ : EngineType
  vpExecuteCaps : VP_EXECUTE_CAPS
  deriving DecidableEq, Repr

/-- The class an object was constructed as. -/
inductive HwFilterClass where
  | HwFilter
  | HwFilterVebox
  | HwFilterSfc
  | HwFilterRender
  deriving DecidableEq, Repr

/-- An object of class `HwFilter` or of one of its subclasses: its class and
the protected members `m_Params` and `m_vpExecuteCaps`. -/
structure HwFilter where
  cls : HwFilterClass
  m_Params : PACKET_PARAMS
  m_vpExecuteCaps : VP_EXECUTE_CAPS
  deriving DecidableEq, Repr

/-- The three external parameter constructors; `none` is the null pointer. -/
structure VpParameterCreators where
  VpSfcCscParameter_Create : HW_FILTER_CSC_PARAM → Option VpPacketParameter
  VpSfcRotMirParameter_Create : HW_FILTER_ROT_MIR_PARAM → Option VpPacketParameter
  VpSfcScalingParameter_Create : HW_FILTER_SCALING_PARAM → Option VpPacketParameter

/-- `HwFilter::GetEngineType`. -/
def GetEngineType (f : HwFilter) : EngineType := f.m_Params.Type_

/-- Modelled from the spec: the macro `VP_PUBLIC_CHK_NULL_RETURN` is declared
outside the source file; on a null pointer the caller returns at once with a
failure status, here `MOS_STATUS_NULL_POINTER`. -/
def VP_PUBLIC_CHK_NULL_RETURN_status : MOS_STATUS := MOS_STATUS.MOS_STATUS_NULL_POINTER

/-- The statement `m_Params.Params.push_back(p)`. -/
def pushParam (f : HwFilter) (p : VpPacketParameter) : HwFilter :=
  { f with m_Params := { f.m_Params with Params := f.m_Params.Params ++ [p] } }

/-! ## The configuration calls, class by class -/

/-- `HwFilter::ConfigCscParam`. -/
def HwFilter_ConfigCscParam (f : HwFilter) (_param : HW_FILTER_CSC_PARAM) :
    MOS_STATUS × HwFilter :=
  (MOS_STATUS.MOS_STATUS_SUCCESS, f)

/-- `HwFilter::ConfigRotMirParam`. -/
def HwFilter_ConfigRotMirParam (f : HwFilter) (_param : HW_FILTER_ROT_MIR_PARAM) :
    MOS_STATUS × HwFilter :=
  (MOS_STATUS.MOS_STATUS_SUCCESS, f)

/-- `HwFilter::ConfigScalingParam`. -/
def HwFilter_ConfigScalingParam (f : HwFilter) (_param : HW_FILTER_SCALING_PARAM) :
    MOS_STATUS × HwFilter :=
  (MOS_STATUS.MOS_STATUS_SUCCESS, f)

/-- `HwFilterVebox::ConfigCscParam`. -/
def HwFilterVebox_ConfigCscParam (f : HwFilter) (_param : HW_FILTER_CSC_PARAM) :
    MOS_STATUS × HwFilter :=
  (MOS_STATUS.MOS_STATUS_SUCCESS, f)

/-- `HwFilterVebox::ConfigRotMirParam`. -/
def HwFilterVebox_ConfigRotMirParam (f : HwFilter) (_param : HW_FILTER_ROT_MIR_PARAM) :
    MOS_STATUS × HwFilter :=
  (MOS_STATUS.MOS_STATUS_SUCCESS, f)

/-- `HwFilterVebox::ConfigScalingParam`. -/
def HwFilterVebox_ConfigScalingParam (f : HwFilter) (_param : HW_FILTER_SCALING_PARAM) :
    MOS_STATUS × HwFilter :=
  (MOS_STATUS.MOS_STATUS_SUCCESS, f)

/-- `HwFilterSfc::ConfigCscParam`. -/
def HwFilterSfc_ConfigCscParam (cr : VpParameterCreators) (f : HwFilter)
    (param : HW_FILTER_CSC_PARAM) : MOS_STATUS × HwFilter :=
  if param.vpExecuteCaps.bSfcCsc then
    match cr.VpSfcCscParameter_Create param with
    | none => (VP_PUBLIC_CHK_NULL_RETURN_status, f)
    | some p => (MOS_STATUS.MOS_STATUS_SUCCESS, pushParam f p)
  else
    HwFilterVebox_ConfigCscParam f param

/-- `HwFilterSfc::ConfigRotMirParam`. -/
def HwFilterSfc_ConfigRotMirParam (cr : VpParameterCreators) (f : HwFilter)
    (param : HW_FILTER_ROT_MIR_PARAM) : MOS_STATUS × HwFilter :=
  if param.vpExecuteCaps.bSfcRotMir then
    match cr.VpSfcRotMirParameter_Create param with
    | none => (VP_PUBLIC_CHK_NULL_RETURN_status, f)
    | some p => (MOS_STATUS.MOS_STATUS_SUCCESS, pushParam f p)
  else
    HwFilterVebox_ConfigRotMirParam f param

/-- `HwFilterSfc::ConfigScalingParam`. -/
def HwFilterSfc_ConfigScalingParam (cr : VpParameterCreators) (f : HwFilter)
    (param : HW_FILTER_SCALING_PARAM) : MOS_STATUS × HwFilter :=
  if param.vpExecuteCaps.bSfcScaling then
    match cr.VpSfcScalingParameter_Create param with
    | none => (VP_PUBLIC_CHK_NULL_RETURN_status, f)
    | some p => (MOS_STATUS.MOS_STATUS_SUCCESS, pushParam f p)
  else
    HwFilterVebox_ConfigScalingParam f param

/-- `HwFilterRender::ConfigCscParam`. -/
def HwFilterRender_ConfigCscParam (f : HwFilter) (_param : HW_FILTER_CSC_PARAM) :
    MOS_STATUS × HwFilter :=
  (MOS_STATUS.MOS_STATUS_SUCCESS, f)

/-- `HwFilterRender::ConfigRotMirParam`. -/
def HwFilterRender_ConfigRotMirParam (f : HwFilter) (_param : HW_FILTER_ROT_MIR_PARAM) :
    MOS_STATUS × HwFilter :=
  (MOS_STATUS.MOS_STATUS_SUCCESS, f)

/-- `HwFilterRender::ConfigScalingParam`. -/
def HwFilterRender_ConfigScalingParam (f : HwFilter) (_param : HW_FILTER_SCALING_PARAM) :
    MOS_STATUS × HwFilter :=
  (MOS_STATUS.MOS_STATUS_SUCCESS, f)

/-- The virtual call `ConfigCscParam` on an object. -/
def ConfigCscParam (cr : VpParameterCreators) (f : HwFilter) (param : HW_FILTER_CSC_PARAM) :
    MOS_STATUS × HwFilter :=
  match f.cls with
  | HwFilterClass.HwFilter => HwFilter_ConfigCscParam f param
  | HwFilterClass.HwFilterVebox => HwFilterVebox_ConfigCscParam f param
  | HwFilterClass.HwFilterSfc => HwFilterSfc_ConfigCscParam cr f param
  | HwFilterClass.HwFilterRender => HwFilterRender_ConfigCscParam f param

/-- The virtual call `ConfigRotMirParam` on an object. -/
def ConfigRotMirParam (cr : VpParameterCreators) (f : HwFilter)
    (param : HW_FILTER_ROT_MIR_PARAM) : MOS_STATUS × HwFilter :=
  match f.cls with
  | HwFilterClass.HwFilter => HwFilter_ConfigRotMirParam f param
  | HwFilterClass.HwFilterVebox => HwFilterVebox_ConfigRotMirParam f param
  | HwFilterClass.HwFilterSfc => HwFilterSfc_ConfigRotMirParam cr f param
  | HwFilterClass.HwFilterRender => HwFilterRender_ConfigRotMirParam f param

/-- The virtual call `ConfigScalingParam` on an object. -/
def ConfigScalingParam (cr : VpParameterCreators) (f : HwFilter)
    (param : HW_FILTER_SCALING_PARAM) : MOS_STATUS × HwFilter :=
  match f.cls with
  | HwFilterClass.HwFilter => HwFilter_ConfigScalingParam f param
  | HwFilterClass.HwFilterVebox => HwFilterVebox_ConfigScalingParam f param
  | HwFilterClass.HwFilterSfc => HwFilterSfc_ConfigScalingParam cr f param
  | HwFilterClass.HwFilterRender => HwFilterRender_ConfigScalingParam f param

/-! ## Sequences of configuration calls -/

/-- One configuration call with its argument. -/
inductive ConfigCall where
  | csc (param : HW_FILTER_CSC_PARAM)
  | rotMir (param : HW_FILTER_ROT_MIR_PARAM)
  | scaling (param : HW_FILTER_SCALING_PARAM)
  deriving DecidableEq, Repr

/-- The capability bits that come with a call. -/
def ConfigCall.caps : ConfigCall → VP_EXECUTE_CAPS
  | ConfigCall.csc param => param.vpExecuteCaps
  | ConfigCall.rotMir param => param.vpExecuteCaps
  | ConfigCall.scaling param => param.vpExecuteCaps

/-- The capability bit a call is gated by: `bSfcCsc`, `bSfcRotMir` or
`bSfcScaling`. -/
def ConfigCall.ownFlag : ConfigCall → Bool
  | ConfigCall.csc param => param.vpExecuteCaps.bSfcCsc
  | ConfigCall.rotMir param => param.vpExecuteCaps.bSfcRotMir
  | ConfigCall.scaling param => param.vpExecuteCaps.bSfcScaling

/-- What the external constructor of a call returns for its argument. -/
def ConfigCall.create (cr : VpParameterCreators) : ConfigCall → Option VpPacketParameter
  | ConfigCall.csc param => cr.VpSfcCscParameter_Create param
  | ConfigCall.rotMir param => cr.VpSfcRotMirParameter_Create param
  | ConfigCall.scaling param => cr.VpSfcScalingParameter_Create param

/-- The object created by an active call (own flag true), if any. -/
def ConfigCall.created (cr : VpParameterCreators) (c : ConfigCall) : Option VpPacketParameter :=
  if c.ownFlag then c.create cr else none

/-- One call made on an object. -/
def configCall (cr : VpParameterCreators) (f : HwFilter) : ConfigCall → MOS_STATUS × HwFilter
  | ConfigCall.csc param => ConfigCscParam cr f param
  | ConfigCall.rotMir param => ConfigRotMirParam cr f param
  | ConfigCall.scaling param => ConfigScalingParam cr f param

/-- A finite sequence of calls made one after the other on the same object:
the statuses in call order and the object after the last call. -/
def configCalls (cr : VpParameterCreators) (f : HwFilter) :
    List ConfigCall → List MOS_STATUS × HwFilter
  | [] => ([], f)
  | c :: rest =>
    let r := configCall cr f c
    let rs := configCalls cr r.2 rest
    (r.1 :: rs.1, rs.2)

/-! ## The factory -/

/-- Modelled from the spec: `HwFilter::Clean` is declared in the header and
defined outside the source files; a filter goes back to the pool in the
Uninitialized state, its pending parameter list empty. -/
def Clean (f : HwFilter) : HwFilter :=
  { f with m_Params := { f.m_Params with Params := [] } }

/-- The class `HwFilterFactory`: its three queues, front first. -/
structure HwFilterFactory where
  m_PoolVebox : List HwFilter
  m_PoolSfc : List HwFilter
  m_PoolRender : List HwFilter
  deriving DecidableEq, Repr

/-- The free-list of an engine type; `EngineTypeInvalid` has none. -/
def poolOf (fac : HwFilterFactory) : EngineType → List HwFilter
  | EngineType.EngineTypeInvalid => []
  | EngineType.EngineTypeVebox => fac.m_PoolVebox
  | EngineType.EngineTypeSfc => fac.m_PoolSfc
  | EngineType.EngineTypeRender => fac.m_PoolRender

/-- Modelled from the spec: `HwFilterFactory::GetIdleHwFilter` is declared in
the header and defined outside the source files; it pops the front of the
queue if the queue is non-empty. -/
def GetIdleHwFilter (pool : List HwFilter) : Option HwFilter × List HwFilter :=
  match pool with
  | [] => (none, [])
  | p :: rest => (some p, rest)

/-- Modelled from the spec: the constructors `HwFilterVebox()`, `HwFilterSfc()`
and `HwFilterRender()` are defined outside the source files; a new instance
of the variant of an engine type has that engine type and no pending
parameter. -/
def newHwFilter : EngineType → Option HwFilter
  | EngineType.EngineTypeInvalid => none
  | EngineType.EngineTypeVebox =>
    some { cls := HwFilterClass.HwFilterVebox
           m_Params := { Type_ := EngineType.EngineTypeVebox, Params := [] }
           m_vpExecuteCaps := { bSfcCsc := false, bSfcRotMir := false, bSfcScaling := false } }
  | EngineType.EngineTypeSfc =>
    some { cls := HwFilterClass.HwFilterSfc
           m_Params := { Type_ := EngineType.EngineTypeSfc, Params := [] }
           m_vpExecuteCaps := { bSfcCsc := false, bSfcRotMir := false, bSfcScaling := false } }
  | EngineType.EngineTypeRender =>
    some { cls := HwFilterClass.HwFilterRender
           m_Params := { Type_ := EngineType.EngineTypeRender, Params := [] }
           m_vpExecuteCaps := { bSfcCsc := false, bSfcRotMir := false, bSfcScaling := false } }

/-- Modelled from the spec: `HwFilterFactory::GetHwFilter` is declared in the
header and defined outside the source files; it pops from the free-list of
the requested engine type if that list is non-empty, else it constructs a new
instance of that variant. -/
def GetHwFilter (fac : HwFilterFactory) (param : HW_FILTER_PARAMS) :
    Option HwFilter × HwFilterFactory :=
  match param.Type_ with
  | EngineType.EngineTypeInvalid => (none, fac)
  | EngineType.EngineTypeVebox =>
    match GetIdleHwFilter fac.m_PoolVebox with
    | (some p, rest) => (some p, { fac with m_PoolVebox := rest })
    | (none, _) => (newHwFilter EngineType.EngineTypeVebox, fac)
  | EngineType.EngineTypeSfc =>
    match GetIdleHwFilter fac.m_PoolSfc with
    | (some p, rest) => (some p, { fac with m_PoolSfc := rest })
    | (none, _) => (newHwFilter EngineType.EngineTypeSfc, fac)
  | EngineType.EngineTypeRender =>
    match GetIdleHwFilter fac.m_PoolRender with
    | (some p, rest) => (some p, { fac with m_PoolRender := rest })
    | (none, _) => (newHwFilter EngineType.EngineTypeRender, fac)

/-- Modelled from the spec: `HwFilterFactory::ReturnHwFilter` is declared in
the header and defined outside the source files; it puts the filter, back in
the Uninitialized state, at the end of the free-list of its own engine type. -/
def ReturnHwFilter (fac : HwFilterFactory) (f : HwFilter) : HwFilterFactory :=
  match GetEngineType f with
  | EngineType.EngineTypeInvalid => fac
  | EngineType.EngineTypeVebox => { fac with m_PoolVebox := fac.m_PoolVebox ++ [Clean f] }
  | EngineType.EngineTypeSfc => { fac with m_PoolSfc := fac.m_PoolSfc ++ [Clean f] }
  | EngineType.EngineTypeRender => { fac with m_PoolRender := fac.m_PoolRender ++ [Clean f] }

/-- The pool invariant of the spec: every filter on the free-list of an engine
type has that engine type and an empty pending parameter list. -/
def PoolsWellFormed (fac : HwFilterFactory) : Prop :=
  ∀ E : EngineType, ∀ g ∈ poolOf fac E, GetEngineType g = E ∧ g.m_Params.Params = []

/-! ## Concrete inputs used by the worked examples -/

/-- Capability bits all false. -/
def noCaps : VP_EXECUTE_CAPS := { bSfcCsc := false, bSfcRotMir := false, bSfcScaling := false }

/-- Capability bits all true. -/
def allCaps : VP_EXECUTE_CAPS := { bSfcCsc := true, bSfcRotMir := true, bSfcScaling := true }

/-- Constructors that succeed and return the payload as the handle. -/
def workingCreators : VpParameterCreators :=
  { VpSfcCscParameter_Create := fun param => some { handle := param.payload }
    VpSfcRotMirParameter_Create := fun param => some { handle := param.payload }
    VpSfcScalingParameter_Create := fun param => some { handle := param.payload } }

/-- Constructors that return the null pointer. -/
def exhaustedCreators : VpParameterCreators :=
  { VpSfcCscParameter_Create := fun _ => none
    VpSfcRotMirParameter_Create := fun _ => none
    VpSfcScalingParameter_Create := fun _ => none }

/-- An SFC filter with no pending parameter. -/
def emptySfcFilter : HwFilter :=
  { cls := HwFilterClass.HwFilterSfc
    m_Params := { Type_ := EngineType.EngineTypeSfc, Params := [] }
    m_vpExecuteCaps := allCaps }

/-- An SFC filter holding one pending parameter. -/
def loadedSfcFilter : HwFilter :=
  { cls := HwFilterClass.HwFilterSfc
    m_Params := { Type_ := EngineType.EngineTypeSfc, Params := [{ handle := 7 }] }
    m_vpExecuteCaps := allCaps }

/-- A factory with empty pools. -/
def emptyFactory : HwFilterFactory :=
  { m_PoolVebox := [], m_PoolSfc := [], m_PoolRender := [] }

end vp

namespace JpegSfc

/-! ## Lemmas on the arithmetic helpers -/

theorem and_not_low_mask (m k : Nat) (hm : m < 2 ^ 32) :
    m &&& ((2 ^ k - 1) ^^^ (2 ^ 32 - 1)) = m / 2 ^ k * 2 ^ k := by
  apply Nat.eq_of_testBit_eq
  intro i
  rw [Nat.mul_comm (m / 2 ^ k), Nat.testBit_mul_pow_two, Nat.testBit_and, Nat.testBit_xor,
    Nat.testBit_two_pow_sub_one, Nat.testBit_two_pow_sub_one, ← Nat.shiftRight_eq_div_pow,
    Nat.testBit_shiftRight]
  by_cases hik : i < k
  · have : ¬ (i ≥ k) := by omega
    by_cases hi : i < 32 <;> simp [hik, hi, this]
    have h2 : m < 2 ^ i := lt_of_lt_of_le hm (Nat.pow_le_pow_right (by decide) (by omega))
    exact Nat.testBit_lt_two_pow h2
  · have hge : i ≥ k := by omega
    have hadd : k + (i - k) = i := by omega
    by_cases hi : i < 32
    · simp [hik, hi, hge, hadd]
    · have h2 : m < 2 ^ i := lt_of_lt_of_le hm (Nat.pow_le_pow_right (by decide) (by omega))
      simp [hik, hi, hge, hadd, Nat.testBit_lt_two_pow h2]

theorem MOS_ALIGN_CEIL_eq_roundUp (n k : Nat) (h : n + 2 ^ k - 1 < 2 ^ 32) :
    MOS_ALIGN_CEIL n (2 ^ k) = roundUp n (2 ^ k) := by
  have hpos : 0 < 2 ^ k := Nat.two_pow_pos k
  have e1 : (n + 2 ^ k + (2 ^ 32 - 1)) % 2 ^ 32 = n + 2 ^ k - 1 := by
    have : n + 2 ^ k + (2 ^ 32 - 1) = (n + 2 ^ k - 1) + 2 ^ 32 := by omega
    rw [this, Nat.add_mod_right, Nat.mod_eq_of_lt h]
  have e2 : (2 ^ k + (2 ^ 32 - 1)) % 2 ^ 32 = 2 ^ k - 1 := by
    have : 2 ^ k + (2 ^ 32 - 1) = (2 ^ k - 1) + 2 ^ 32 := by omega
    rw [this, Nat.add_mod_right, Nat.mod_eq_of_lt (by omega)]
  unfold MOS_ALIGN_CEIL roundUp
  rw [e1, e2]
  exact and_not_low_mask _ k h

theorem roundUp_least (n a : Nat) (ha : 0 < a) :
    a ∣ roundUp n a ∧ n ≤ roundUp n a ∧ roundUp n a < n + a ∧
      ∀ m, a ∣ m → n ≤ m → roundUp n a ≤ m := by
  unfold roundUp
  refine ⟨Nat.dvd_mul_left _ _, ?_, ?_, ?_⟩
  · have := Nat.div_add_mod (n + a - 1) a
    have := Nat.mod_lt (n + a - 1) ha
    rw [Nat.mul_comm]; omega
  · have := Nat.div_add_mod (n + a - 1) a
    rw [Nat.mul_comm]; omega
  · rintro m ⟨c, rfl⟩ hle
    rw [Nat.mul_comm a c]
    apply Nat.mul_le_mul_right
    apply Nat.le_of_lt_succ
    rw [Nat.div_lt_iff_lt_mul ha, Nat.succ_mul, Nat.mul_comm c a]
    omega

theorem toInt32_of_lt (n : Nat) (h : n < 2 ^ 31) : toInt32 n = (n : Int) := by
  have h1 : n % 2 ^ 32 = n := Nat.mod_eq_of_lt (by omega)
  unfold toInt32
  rw [h1, if_pos h]

/-! ## Lemmas on the probe -/

theorem sfcOutputCondition_iff (env : SfcEnv) (destSurface : MOS_SURFACE)
    (picParams : CodecDecodeJpegPicParams) :
    sfcOutputCondition env destSurface picParams = true ↔
      env.FtrSFCPipe = true ∧ destSurface.Format = MOS_FORMAT.Format_A8R8G8B8 ∧
      (picParams.m_interleavedData = true ∨
        picParams.m_chromaType = JpegChromaType.jpegYUV400) ∧
      picParams.m_totalScans = 1 := by
  simp [sfcOutputCondition, and_assoc]

theorem createSfcInSurface_bSfcPipeOut (env : SfcEnv) (st : CODECHAL_JPEG_SFC_STATE)
    (destSurface : MOS_SURFACE) (picParams : CodecDecodeJpegPicParams) :
    (createSfcInSurface env st destSurface picParams).bSfcPipeOut =
      isEnumeratedChroma picParams.m_chromaType := by
  rcases picParams with ⟨i, c, n⟩
  cases c <;> rfl

theorem CheckAndInitialize_of_not_condition (env : SfcEnv) (st : CODECHAL_JPEG_SFC_STATE)
    (destSurface : MOS_SURFACE) (picParams : CodecDecodeJpegPicParams)
    (h : sfcOutputCondition env destSurface picParams = false) :
    CheckAndInitialize env st destSurface picParams = sanityCheck st destSurface := by
  simp [CheckAndInitialize, h]

theorem CheckAndInitialize_of_refused (env : SfcEnv) (st : CODECHAL_JPEG_SFC_STATE)
    (destSurface : MOS_SURFACE) (picParams : CodecDecodeJpegPicParams)
    (h : sfcOutputCondition env destSurface picParams = true)
    (henum : isEnumeratedChroma picParams.m_chromaType = true)
    (hsup : env.IsSfcOutputSupported (probedState env st destSurface picParams)
      (probedProcParams env st destSurface picParams) SFC_PIPE_MODE.SFC_PIPE_MODE_VDBOX = false) :
    CheckAndInitialize env st destSurface picParams =
      sanityCheck { createSfcInSurface env st destSurface picParams with bSfcPipeOut := false }
        destSurface := by
  have hflag := createSfcInSurface_bSfcPipeOut env st destSurface picParams
  rw [henum] at hflag
  simp only [probedState, probedProcParams] at hsup
  simp [CheckAndInitialize, h, hflag, hsup]

theorem CheckAndInitialize_of_accepted (env : SfcEnv) (st : CODECHAL_JPEG_SFC_STATE)
    (destSurface : MOS_SURFACE) (picParams : CodecDecodeJpegPicParams)
    (h : sfcOutputCondition env destSurface picParams = true)
    (henum : isEnumeratedChroma picParams.m_chromaType = true)
    (hsup : env.IsSfcOutputSupported (probedState env st destSurface picParams)
      (probedProcParams env st destSurface picParams) SFC_PIPE_MODE.SFC_PIPE_MODE_VDBOX = true) :
    CheckAndInitialize env st destSurface picParams =
      match env.Initialize (recordedState env st destSurface picParams)
          (probedProcParams env st destSurface picParams) SFC_PIPE_MODE.SFC_PIPE_MODE_VDBOX with
      | (MOS_STATUS.MOS_STATUS_SUCCESS, st3) =>
        sanityCheck { st3 with bSfcPipeOut := true } destSurface
      | (eStatus, st3) => (eStatus, st3) := by
  have hflag := createSfcInSurface_bSfcPipeOut env st destSurface picParams
  rw [henum] at hflag
  simp only [probedState, probedProcParams] at hsup
  simp only [CheckAndInitialize, h, hflag, hsup, if_true, recordedState, probedProcParams]

theorem CheckAndInitialize_of_unlisted (env : SfcEnv) (st : CODECHAL_JPEG_SFC_STATE)
    (destSurface : MOS_SURFACE) (picParams : CodecDecodeJpegPicParams)
    (h : sfcOutputCondition env destSurface picParams = true)
    (henum : isEnumeratedChroma picParams.m_chromaType = false) :
    CheckAndInitialize env st destSurface picParams =
      sanityCheck (createSfcInSurface env st destSurface picParams) destSurface := by
  have hflag := createSfcInSurface_bSfcPipeOut env st destSurface picParams
  rw [henum] at hflag
  simp [CheckAndInitialize, h, hflag]

theorem sanityCheck_snd (st : CODECHAL_JPEG_SFC_STATE) (destSurface : MOS_SURFACE) :
    (sanityCheck st destSurface).2 = st := by
  unfold sanityCheck
  split <;> rfl

/-- When the decision rule holds and `Initialize` does not write the pseudo
input surface, the surface after the call is the one of source lines 46-79. -/
theorem CheckAndInitialize_sSfcInSurface (env : SfcEnv) (st : CODECHAL_JPEG_SFC_STATE)
    (destSurface : MOS_SURFACE) (picParams : CodecDecodeJpegPicParams)
    (h : sfcOutputCondition env destSurface picParams = true)
    (hkeep : ∀ s p m, (env.Initialize s p m).2.sSfcInSurface = s.sSfcInSurface) :
    (CheckAndInitialize env st destSurface picParams).2.sSfcInSurface =
      (createSfcInSurface env st destSurface picParams).sSfcInSurface := by
  cases henum : isEnumeratedChroma picParams.m_chromaType
  · rw [CheckAndInitialize_of_unlisted env st destSurface picParams h henum, sanityCheck_snd]
  · cases hsup : env.IsSfcOutputSupported (probedState env st destSurface picParams)
        (probedProcParams env st destSurface picParams) SFC_PIPE_MODE.SFC_PIPE_MODE_VDBOX
    · rw [CheckAndInitialize_of_refused env st destSurface picParams h henum hsup,
        sanityCheck_snd]
    · rw [CheckAndInitialize_of_accepted env st destSurface picParams h henum hsup]
      have hk := hkeep (recordedState env st destSurface picParams)
        (probedProcParams env st destSurface picParams) SFC_PIPE_MODE.SFC_PIPE_MODE_VDBOX
      rcases hI : env.Initialize (recordedState env st destSurface picParams)
        (probedProcParams env st destSurface picParams) SFC_PIPE_MODE.SFC_PIPE_MODE_VDBOX
        with ⟨status, st3⟩
      rw [hI] at hk
      cases status
      case MOS_STATUS_SUCCESS =>
        simp only [sanityCheck_snd]
        exact hk
      all_goals exact hk

theorem createSfcInSurface_dwWidth (env : SfcEnv) (st : CODECHAL_JPEG_SFC_STATE)
    (destSurface : MOS_SURFACE) (picParams : CodecDecodeJpegPicParams) :
    (createSfcInSurface env st destSurface picParams).sSfcInSurface.dwWidth =
      destSurface.dwWidth := by
  rcases destSurface with ⟨w, h, p, f, t, u, v⟩
  rcases picParams with ⟨il, c, n⟩
  cases c <;> rfl

theorem createSfcInSurface_dwHeight (env : SfcEnv) (st : CODECHAL_JPEG_SFC_STATE)
    (destSurface : MOS_SURFACE) (picParams : CodecDecodeJpegPicParams) :
    (createSfcInSurface env st destSurface picParams).sSfcInSurface.dwHeight =
      destSurface.dwHeight := by
  rcases destSurface with ⟨w, h, p, f, t, u, v⟩
  rcases picParams with ⟨il, c, n⟩
  cases c <;> rfl

theorem createSfcInSurface_dwPitch (env : SfcEnv) (st : CODECHAL_JPEG_SFC_STATE)
    (destSurface : MOS_SURFACE) (picParams : CodecDecodeJpegPicParams) :
    (createSfcInSurface env st destSurface picParams).sSfcInSurface.dwPitch =
      MOS_ALIGN_CEIL destSurface.dwWidth env.CODECHAL_SURFACE_PITCH_ALIGNMENT := by
  rcases destSurface with ⟨w, h, p, f, t, u, v⟩
  rcases picParams with ⟨il, c, n⟩
  cases c <;> rfl

theorem plane_offset_half (h k : Nat) (hwrap : h + 2 ^ k - 1 < 2 ^ 32)
    (hfit : roundUp h (2 ^ k) + h / 2 < 2 ^ 31) :
    toInt32 (MOS_ALIGN_CEIL h (2 ^ k) + (h >>> 1)) = ((roundUp h (2 ^ k) + h / 2 : Nat) : Int) := by
  rw [MOS_ALIGN_CEIL_eq_roundUp h k hwrap, Nat.shiftRight_eq_div_pow, Nat.pow_one]
  exact toInt32_of_lt _ hfit

theorem plane_offset_full (h k : Nat) (hwrap : h + 2 ^ k - 1 < 2 ^ 32)
    (hfit : roundUp h (2 ^ k) + h < 2 ^ 31) :
    toInt32 (MOS_ALIGN_CEIL h (2 ^ k) + h) = ((roundUp h (2 ^ k) + h : Nat) : Int) := by
  rw [MOS_ALIGN_CEIL_eq_roundUp h k hwrap]
  exact toInt32_of_lt _ hfit

theorem sanityCheck_fst_rgb (st : CODECHAL_JPEG_SFC_STATE) (destSurface : MOS_SURFACE)
    (hfmt : destSurface.Format = MOS_FORMAT.Format_A8R8G8B8) :
    (sanityCheck st destSurface).1 =
      if st.bSfcPipeOut then MOS_STATUS.MOS_STATUS_SUCCESS else MOS_STATUS.MOS_STATUS_UNKNOWN := by
  unfold sanityCheck
  cases hb : st.bSfcPipeOut <;> simp [hfmt]

theorem sfcOutputCondition_false_iff (env : SfcEnv) (destSurface : MOS_SURFACE)
    (picParams : CodecDecodeJpegPicParams) :
    sfcOutputCondition env destSurface picParams = false ↔
      ¬ (env.FtrSFCPipe = true ∧ destSurface.Format = MOS_FORMAT.Format_A8R8G8B8 ∧
        (picParams.m_interleavedData = true ∨
          picParams.m_chromaType = JpegChromaType.jpegYUV400) ∧
        picParams.m_totalScans = 1) := by
  rw [← sfcOutputCondition_iff]
  cases sfcOutputCondition env destSurface picParams <;> simp

/-! ## Lemmas on the input derivation -/

theorem MOS_ALIGN_CEIL_specAlignUnit (n : Nat) (c : JpegChromaType) (h : n ≤ 2 ^ 32 - 16) :
    MOS_ALIGN_CEIL n (specAlignUnit c) = roundUp n (specAlignUnit c) := by
  have h8 : MOS_ALIGN_CEIL n (2 ^ 3) = roundUp n (2 ^ 3) :=
    MOS_ALIGN_CEIL_eq_roundUp n 3 (by omega)
  have h16 : MOS_ALIGN_CEIL n (2 ^ 4) = roundUp n (2 ^ 4) :=
    MOS_ALIGN_CEIL_eq_roundUp n 4 (by omega)
  have e : specAlignUnit c = 2 ^ 3 ∨ specAlignUnit c = 2 ^ 4 := by
    cases c <;> simp [specAlignUnit]
  rcases e with e | e
  · rw [e]; exact h8
  · rw [e]; exact h16

theorem specAlignUnit_pos (c : JpegChromaType) : 0 < specAlignUnit c := by
  cases c <;> simp [specAlignUnit]

/-- For an enumerated layout `UpdateInputInfo` succeeds and writes all six
fields: the two fixed tags, the two tags of the table, and the two frame sizes
aligned to the unit of the table. -/
theorem UpdateInputInfo_of_enumerated (st : CODECHAL_JPEG_SFC_STATE)
    (sfcStateParams : MHW_SFC_STATE_PARAMS)
    (henum : isEnumeratedChroma st.ucJpegChromaType = true) :
    UpdateInputInfo st sfcStateParams =
      (MOS_STATUS.MOS_STATUS_SUCCESS,
        { sfcPipeMode := MEDIASTATE_SFC_PIPE_MODE.MEDIASTATE_SFC_PIPE_VD_TO_SFC
          dwAVSFilterMode := MEDIASTATE_SFC_AVS_FILTER_MODE.MEDIASTATE_SFC_AVS_FILTER_5x5
          dwVDVEInputOrderingMode := specOrderingMode st.ucJpegChromaType
          dwInputChromaSubSampling := specSubSampling st.ucJpegChromaType
          dwInputFrameWidth :=
            MOS_ALIGN_CEIL st.pInputSurface.dwWidth (specAlignUnit st.ucJpegChromaType)
          dwInputFrameHeight :=
            MOS_ALIGN_CEIL st.pInputSurface.dwHeight (specAlignUnit st.ucJpegChromaType) }) := by
  rcases st with ⟨surf, po, ju, c, inp⟩
  rcases sfcStateParams with ⟨a, b, o, sub, w, h⟩
  cases c <;> first | rfl | simp [isEnumeratedChroma] at henum

/-- For a layout outside the enumeration `UpdateInputInfo` fails after writing
only the two fixed tags. -/
theorem UpdateInputInfo_of_unlisted (st : CODECHAL_JPEG_SFC_STATE)
    (sfcStateParams : MHW_SFC_STATE_PARAMS)
    (henum : isEnumeratedChroma st.ucJpegChromaType = false) :
    UpdateInputInfo st sfcStateParams =
      (MOS_STATUS.MOS_STATUS_UNKNOWN,
        { sfcPipeMode := MEDIASTATE_SFC_PIPE_MODE.MEDIASTATE_SFC_PIPE_VD_TO_SFC
          dwAVSFilterMode := MEDIASTATE_SFC_AVS_FILTER_MODE.MEDIASTATE_SFC_AVS_FILTER_5x5
          dwVDVEInputOrderingMode := sfcStateParams.dwVDVEInputOrderingMode
          dwInputChromaSubSampling := sfcStateParams.dwInputChromaSubSampling
          dwInputFrameWidth := sfcStateParams.dwInputFrameWidth
          dwInputFrameHeight := sfcStateParams.dwInputFrameHeight }) := by
  rcases st with ⟨surf, po, ju, c, inp⟩
  rcases sfcStateParams with ⟨a, b, o, sub, w, h⟩
  cases c <;> first | rfl | simp [isEnumeratedChroma] at henum

theorem isEnumeratedChroma_eq_false_iff (c : JpegChromaType) :
    isEnumeratedChroma c = false ↔
      c ≠ JpegChromaType.jpegYUV400 ∧ c ≠ JpegChromaType.jpegYUV420 ∧
      c ≠ JpegChromaType.jpegYUV422H2Y ∧ c ≠ JpegChromaType.jpegYUV422H4Y ∧
      c ≠ JpegChromaType.jpegYUV444 ∧ c ≠ JpegChromaType.jpegRGB ∧
      c ≠ JpegChromaType.jpegBGR := by
  cases c <;> simp [isEnumeratedChroma]

/-! ## Claims on `CheckAndInitialize` -/

/-- C1: when the destination format is not `Format_A8R8G8B8`,
`CheckAndInitialize` returns `MOS_STATUS_SUCCESS`, whatever the picture
parameters, the state before the call and the two base-class functions are;
in particular it never returns `MOS_STATUS_UNKNOWN`. -/
theorem CheckAndInitialize_success_of_not_rgb (env : SfcEnv) (st : CODECHAL_JPEG_SFC_STATE)
    (destSurface : MOS_SURFACE) (picParams : CodecDecodeJpegPicParams)
    (hfmt : destSurface.Format ≠ MOS_FORMAT.Format_A8R8G8B8) :
    (CheckAndInitialize env st destSurface picParams).1 = MOS_STATUS.MOS_STATUS_SUCCESS := by
  have hc : sfcOutputCondition env destSurface picParams = false := by
    cases hb : sfcOutputCondition env destSurface picParams
    · rfl
    · exact absurd ((sfcOutputCondition_iff env destSurface picParams).1 hb).2.1 hfmt
  rw [CheckAndInitialize_of_not_condition env st destSurface picParams hc]
  simp [sanityCheck, hfmt]

/-- C1, worked example: a destination in another format, probed on hardware
that would accept, succeeds. -/
theorem CheckAndInitialize_success_of_not_rgb_witness :
    otherDest.Format ≠ MOS_FORMAT.Format_A8R8G8B8 ∧
    (CheckAndInitialize acceptingEnv freshState otherDest pic420).1 =
      MOS_STATUS.MOS_STATUS_SUCCESS :=
  ⟨by decide,
    CheckAndInitialize_success_of_not_rgb acceptingEnv freshState otherDest pic420 (by decide)⟩

/-- C2, the code at the failing input: a first probe of a supported picture
sets `bSfcPipeOut`; the next probe on the same object, of a two-scan picture
(the decision rule fails), leaves `bSfcPipeOut` set and returns success. -/
theorem CheckAndInitialize_two_scans_keeps_stale_flag :
    (CheckAndInitialize acceptingEnv freshState rgbDest pic420).1 =
        MOS_STATUS.MOS_STATUS_SUCCESS ∧
    (CheckAndInitialize acceptingEnv freshState rgbDest pic420).2.bSfcPipeOut = true ∧
    pic420TwoScans.m_totalScans ≠ 1 ∧
    (CheckAndInitialize acceptingEnv
        (CheckAndInitialize acceptingEnv freshState rgbDest pic420).2
        rgbDest pic420TwoScans).2.bSfcPipeOut = true := by
  decide

/-- C3, the code at the failing input: after a first probe of a supported
picture, the probe of a non-interleaved 4:2:0 picture with an RGB destination
(no usable path under the decision rule) returns `MOS_STATUS_SUCCESS`, not
`MOS_STATUS_UNKNOWN`. -/
theorem CheckAndInitialize_planar_succeeds_on_stale_flag :
    (CheckAndInitialize acceptingEnv freshState rgbDest pic420).2.bSfcPipeOut = true ∧
    rgbDest.Format = MOS_FORMAT.Format_A8R8G8B8 ∧
    pic420Planar.m_interleavedData = false ∧
    pic420Planar.m_chromaType ≠ JpegChromaType.jpegYUV400 ∧
    (CheckAndInitialize acceptingEnv
        (CheckAndInitialize acceptingEnv freshState rgbDest pic420).2
        rgbDest pic420Planar).1 = MOS_STATUS.MOS_STATUS_SUCCESS := by
  decide

/-- C4: when the four conditions of the decision rule hold, the chroma layout
is one of the seven enumerated ones and `IsSfcOutputSupported` returns false,
`CheckAndInitialize` leaves `bSfcPipeOut` false and returns
`MOS_STATUS_UNKNOWN`, for every state before the call. -/
theorem CheckAndInitialize_fails_of_refused (env : SfcEnv) (st : CODECHAL_JPEG_SFC_STATE)
    (destSurface : MOS_SURFACE) (picParams : CodecDecodeJpegPicParams)
    (hsku : env.FtrSFCPipe = true)
    (hfmt : destSurface.Format = MOS_FORMAT.Format_A8R8G8B8)
    (hil : picParams.m_interleavedData = true ∨
      picParams.m_chromaType = JpegChromaType.jpegYUV400)
    (hscan : picParams.m_totalScans = 1)
    (henum : isEnumeratedChroma picParams.m_chromaType = true)
    (hsup : env.IsSfcOutputSupported (probedState env st destSurface picParams)
      (probedProcParams env st destSurface picParams) SFC_PIPE_MODE.SFC_PIPE_MODE_VDBOX = false) :
    (CheckAndInitialize env st destSurface picParams).2.bSfcPipeOut = false ∧
    (CheckAndInitialize env st destSurface picParams).1 = MOS_STATUS.MOS_STATUS_UNKNOWN := by
  have hc := (sfcOutputCondition_iff env destSurface picParams).2 ⟨hsku, hfmt, hil, hscan⟩
  rw [CheckAndInitialize_of_refused env st destSurface picParams hc henum hsup]
  simp [sanityCheck, hfmt]

/-- C4, worked example: RGB destination, interleaved single-scan 4:2:0, SFC
unit present, predicate refusing. -/
theorem CheckAndInitialize_fails_of_refused_witness :
    (CheckAndInitialize refusingEnv freshState rgbDest pic420).2.bSfcPipeOut = false ∧
    (CheckAndInitialize refusingEnv freshState rgbDest pic420).1 =
      MOS_STATUS.MOS_STATUS_UNKNOWN :=
  CheckAndInitialize_fails_of_refused refusingEnv freshState rgbDest pic420
    rfl rfl (Or.inl rfl) rfl rfl rfl

/-- C5: when the four conditions of the decision rule hold, the plane
alignment is a power of two, nothing wraps around in 32 bits, and `Initialize`
does not write the pseudo input surface, the surface after
`CheckAndInitialize` carries: for 4:2:0 the tag `Format_IMC3` and for both
4:2:2 layouts the tag `Format_422H`, each with U-plane row offset `destHeight`
and V-plane row offset `roundUp destHeight A + destHeight / 2`; for 4:4:4, RGB
and BGR the tag `Format_444P` with V-plane row offset
`roundUp destHeight A + destHeight`; for monochrome the tag `Format_400P` and
no V-plane offset written (the field keeps its earlier value). -/
theorem CheckAndInitialize_derived_planes (env : SfcEnv) (st : CODECHAL_JPEG_SFC_STATE)
    (destSurface : MOS_SURFACE) (picParams : CodecDecodeJpegPicParams) (k : Nat)
    (hsku : env.FtrSFCPipe = true)
    (hfmt : destSurface.Format = MOS_FORMAT.Format_A8R8G8B8)
    (hil : picParams.m_interleavedData = true ∨
      picParams.m_chromaType = JpegChromaType.jpegYUV400)
    (hscan : picParams.m_totalScans = 1)
    (hA : env.MHW_VDBOX_MFX_UV_PLANE_ALIGNMENT_LEGACY = 2 ^ k)
    (hwrap : destSurface.dwHeight + 2 ^ k - 1 < 2 ^ 32)
    (hkeep : ∀ s p m, (env.Initialize s p m).2.sSfcInSurface = s.sSfcInSurface) :
    (picParams.m_chromaType = JpegChromaType.jpegYUV420 →
      roundUp destSurface.dwHeight (2 ^ k) + destSurface.dwHeight / 2 < 2 ^ 31 →
      (CheckAndInitialize env st destSurface picParams).2.sSfcInSurface.Format =
        MOS_FORMAT.Format_IMC3 ∧
      (CheckAndInitialize env st destSurface picParams).2.sSfcInSurface.UPlaneOffset_iYOffset =
        (destSurface.dwHeight : Int) ∧
      (CheckAndInitialize env st destSurface picParams).2.sSfcInSurface.VPlaneOffset_iYOffset =
        ((roundUp destSurface.dwHeight (2 ^ k) + destSurface.dwHeight / 2 : Nat) : Int)) ∧
    (picParams.m_chromaType = JpegChromaType.jpegYUV422H2Y ∨
        picParams.m_chromaType = JpegChromaType.jpegYUV422H4Y →
      roundUp destSurface.dwHeight (2 ^ k) + destSurface.dwHeight / 2 < 2 ^ 31 →
      (CheckAndInitialize env st destSurface picParams).2.sSfcInSurface.Format =
        MOS_FORMAT.Format_422H ∧
      (CheckAndInitialize env st destSurface picParams).2.sSfcInSurface.UPlaneOffset_iYOffset =
        (destSurface.dwHeight : Int) ∧
      (CheckAndInitialize env st destSurface picParams).2.sSfcInSurface.VPlaneOffset_iYOffset =
        ((roundUp destSurface.dwHeight (2 ^ k) + destSurface.dwHeight / 2 : Nat) : Int)) ∧
    (picParams.m_chromaType = JpegChromaType.jpegYUV444 ∨
        picParams.m_chromaType = JpegChromaType.jpegRGB ∨
        picParams.m_chromaType = JpegChromaType.jpegBGR →
      roundUp destSurface.dwHeight (2 ^ k) + destSurface.dwHeight < 2 ^ 31 →
      (CheckAndInitialize env st destSurface picParams).2.sSfcInSurface.Format =
        MOS_FORMAT.Format_444P ∧
      (CheckAndInitialize env st destSurface picParams).2.sSfcInSurface.UPlaneOffset_iYOffset =
        (destSurface.dwHeight : Int) ∧
      (CheckAndInitialize env st destSurface picParams).2.sSfcInSurface.VPlaneOffset_iYOffset =
        ((roundUp destSurface.dwHeight (2 ^ k) + destSurface.dwHeight : Nat) : Int)) ∧
    (picParams.m_chromaType = JpegChromaType.jpegYUV400 →
      (CheckAndInitialize env st destSurface picParams).2.sSfcInSurface.Format =
        MOS_FORMAT.Format_400P ∧
      (CheckAndInitialize env st destSurface picParams).2.sSfcInSurface.VPlaneOffset_iYOffset =
        st.sSfcInSurface.VPlaneOffset_iYOffset) := by
  have hc := (sfcOutputCondition_iff env destSurface picParams).2 ⟨hsku, hfmt, hil, hscan⟩
  rw [CheckAndInitialize_sSfcInSurface env st destSurface picParams hc hkeep]
  have hle : destSurface.dwHeight ≤ roundUp destSurface.dwHeight (2 ^ k) :=
    (roundUp_least _ _ (Nat.two_pow_pos k)).2.1
  rcases picParams with ⟨il, c, n⟩
  refine ⟨?_, ?_, ?_, ?_⟩
  · intro hcase hfit
    simp only at hcase
    subst hcase
    simp only [createSfcInSurface, hA]
    exact ⟨trivial, toInt32_of_lt _ (by omega), plane_offset_half _ k hwrap hfit⟩
  · intro hcase hfit
    simp only at hcase
    rcases hcase with hcase | hcase <;> subst hcase <;> simp only [createSfcInSurface, hA] <;>
      exact ⟨trivial, toInt32_of_lt _ (by omega), plane_offset_half _ k hwrap hfit⟩
  · intro hcase hfit
    simp only at hcase
    rcases hcase with hcase | hcase | hcase <;> subst hcase <;>
      simp only [createSfcInSurface, hA] <;>
      exact ⟨trivial, toInt32_of_lt _ (by omega), plane_offset_full _ k hwrap hfit⟩
  · intro hcase
    simp only at hcase
    subst hcase
    simp only [createSfcInSurface]
    exact ⟨trivial, trivial⟩

/-- C5, worked example: destination height 90, layout 4:2:0, plane alignment
2: the tag is `Format_IMC3`, the U plane starts at row 90 and the V plane at
row 135. -/
theorem CheckAndInitialize_derived_planes_witness :
    (CheckAndInitialize acceptingEnv freshState rgbDest pic420).2.sSfcInSurface.Format =
      MOS_FORMAT.Format_IMC3 ∧
    (CheckAndInitialize acceptingEnv freshState rgbDest pic420).2.sSfcInSurface.UPlaneOffset_iYOffset
      = 90 ∧
    (CheckAndInitialize acceptingEnv freshState rgbDest pic420).2.sSfcInSurface.VPlaneOffset_iYOffset
      = 135 :=
  (CheckAndInitialize_derived_planes acceptingEnv freshState rgbDest pic420 1
    rfl rfl (Or.inl rfl) rfl rfl (by decide) (fun _ _ _ => rfl)).1 rfl (by decide)

/-- C6: when the four conditions of the decision rule hold and `Initialize`
does not write the pseudo input surface, the surface after
`CheckAndInitialize` has the width and height of the destination; with the
pitch alignment `P` a power of two and `destWidth + P - 1 < 2 ^ 32`, its pitch
is the least multiple of `P` that is at least `destWidth`, so
`destWidth ≤ pitch < destWidth + P`. -/
theorem CheckAndInitialize_derived_size_and_pitch (env : SfcEnv)
    (st : CODECHAL_JPEG_SFC_STATE) (destSurface : MOS_SURFACE)
    (picParams : CodecDecodeJpegPicParams) (k : Nat)
    (hsku : env.FtrSFCPipe = true)
    (hfmt : destSurface.Format = MOS_FORMAT.Format_A8R8G8B8)
    (hil : picParams.m_interleavedData = true ∨
      picParams.m_chromaType = JpegChromaType.jpegYUV400)
    (hscan : picParams.m_totalScans = 1)
    (hP : env.CODECHAL_SURFACE_PITCH_ALIGNMENT = 2 ^ k)
    (hwrap : destSurface.dwWidth + 2 ^ k - 1 < 2 ^ 32)
    (hkeep : ∀ s p m, (env.Initialize s p m).2.sSfcInSurface = s.sSfcInSurface) :
    (CheckAndInitialize env st destSurface picParams).2.sSfcInSurface.dwWidth =
      destSurface.dwWidth ∧
    (CheckAndInitialize env st destSurface picParams).2.sSfcInSurface.dwHeight =
      destSurface.dwHeight ∧
    2 ^ k ∣ (CheckAndInitialize env st destSurface picParams).2.sSfcInSurface.dwPitch ∧
    destSurface.dwWidth ≤
      (CheckAndInitialize env st destSurface picParams).2.sSfcInSurface.dwPitch ∧
    (CheckAndInitialize env st destSurface picParams).2.sSfcInSurface.dwPitch <
      destSurface.dwWidth + 2 ^ k ∧
    ∀ m, 2 ^ k ∣ m → destSurface.dwWidth ≤ m →
      (CheckAndInitialize env st destSurface picParams).2.sSfcInSurface.dwPitch ≤ m := by
  have hc := (sfcOutputCondition_iff env destSurface picParams).2 ⟨hsku, hfmt, hil, hscan⟩
  rw [CheckAndInitialize_sSfcInSurface env st destSurface picParams hc hkeep]
  have hpitch : (createSfcInSurface env st destSurface picParams).sSfcInSurface.dwPitch =
      roundUp destSurface.dwWidth (2 ^ k) := by
    rw [createSfcInSurface_dwPitch, hP, MOS_ALIGN_CEIL_eq_roundUp _ k hwrap]
  have hw := createSfcInSurface_dwWidth env st destSurface picParams
  have hh := createSfcInSurface_dwHeight env st destSurface picParams
  rw [hpitch, hw, hh]
  exact ⟨rfl, rfl, roundUp_least _ _ (Nat.two_pow_pos k)⟩

/-- C6, worked example: destination 100 x 90 with pitch alignment 128 gives a
100 x 90 pseudo input surface; its pitch is a multiple of 128 in [100, 228). -/
theorem CheckAndInitialize_derived_size_and_pitch_witness :
    (CheckAndInitialize acceptingEnv freshState rgbDest pic420).2.sSfcInSurface.dwWidth = 100 ∧
    (CheckAndInitialize acceptingEnv freshState rgbDest pic420).2.sSfcInSurface.dwHeight = 90 ∧
    2 ^ 7 ∣ (CheckAndInitialize acceptingEnv freshState rgbDest pic420).2.sSfcInSurface.dwPitch ∧
    100 ≤ (CheckAndInitialize acceptingEnv freshState rgbDest pic420).2.sSfcInSurface.dwPitch ∧
    (CheckAndInitialize acceptingEnv freshState rgbDest pic420).2.sSfcInSurface.dwPitch <
      100 + 2 ^ 7 :=
  have h := CheckAndInitialize_derived_size_and_pitch acceptingEnv freshState rgbDest pic420 7
    rfl rfl (Or.inl rfl) rfl rfl (by decide) (fun _ _ _ => rfl)
  ⟨h.1, h.2.1, h.2.2.1, h.2.2.2.1, h.2.2.2.2.1⟩

/-- C7: when the four conditions of the decision rule hold, the chroma layout
is one of the seven enumerated ones, `IsSfcOutputSupported` returns true and
`Initialize` returns success (leaving the two members `bJpegInUse` and
`ucJpegChromaType` as it found them), `CheckAndInitialize` returns
`MOS_STATUS_SUCCESS` with `bSfcPipeOut` true, `bJpegInUse` true and
`ucJpegChromaType` equal to the chroma layout of the request. -/
theorem CheckAndInitialize_accepts (env : SfcEnv) (st : CODECHAL_JPEG_SFC_STATE)
    (destSurface : MOS_SURFACE) (picParams : CodecDecodeJpegPicParams)
    (hsku : env.FtrSFCPipe = true)
    (hfmt : destSurface.Format = MOS_FORMAT.Format_A8R8G8B8)
    (hil : picParams.m_interleavedData = true ∨
      picParams.m_chromaType = JpegChromaType.jpegYUV400)
    (hscan : picParams.m_totalScans = 1)
    (henum : isEnumeratedChroma picParams.m_chromaType = true)
    (hsup : env.IsSfcOutputSupported (probedState env st destSurface picParams)
      (probedProcParams env st destSurface picParams) SFC_PIPE_MODE.SFC_PIPE_MODE_VDBOX = true)
    (hinit : (env.Initialize (recordedState env st destSurface picParams)
      (probedProcParams env st destSurface picParams) SFC_PIPE_MODE.SFC_PIPE_MODE_VDBOX).1 =
        MOS_STATUS.MOS_STATUS_SUCCESS)
    (hframe : ∀ s p m, (env.Initialize s p m).2.bJpegInUse = s.bJpegInUse ∧
      (env.Initialize s p m).2.ucJpegChromaType = s.ucJpegChromaType) :
    (CheckAndInitialize env st destSurface picParams).1 = MOS_STATUS.MOS_STATUS_SUCCESS ∧
    (CheckAndInitialize env st destSurface picParams).2.bSfcPipeOut = true ∧
    (CheckAndInitialize env st destSurface picParams).2.bJpegInUse = true ∧
    (CheckAndInitialize env st destSurface picParams).2.ucJpegChromaType =
      picParams.m_chromaType := by
  have hc := (sfcOutputCondition_iff env destSurface picParams).2 ⟨hsku, hfmt, hil, hscan⟩
  rw [CheckAndInitialize_of_accepted env st destSurface picParams hc henum hsup]
  have hf := hframe (recordedState env st destSurface picParams)
    (probedProcParams env st destSurface picParams) SFC_PIPE_MODE.SFC_PIPE_MODE_VDBOX
  rcases hI : env.Initialize (recordedState env st destSurface picParams)
    (probedProcParams env st destSurface picParams) SFC_PIPE_MODE.SFC_PIPE_MODE_VDBOX
    with ⟨status, st3⟩
  rw [hI] at hf hinit
  simp only at hinit
  subst hinit
  simp only [sanityCheck, recordedState] at hf ⊢
  simp [hf.1, hf.2]

/-- C7, worked example: RGB destination, interleaved single-scan 4:2:0, SFC
unit present, predicate accepting, initialisation succeeding. -/
theorem CheckAndInitialize_accepts_witness :
    (CheckAndInitialize acceptingEnv freshState rgbDest pic420).1 =
      MOS_STATUS.MOS_STATUS_SUCCESS ∧
    (CheckAndInitialize acceptingEnv freshState rgbDest pic420).2.bSfcPipeOut = true ∧
    (CheckAndInitialize acceptingEnv freshState rgbDest pic420).2.bJpegInUse = true ∧
    (CheckAndInitialize acceptingEnv freshState rgbDest pic420).2.ucJpegChromaType =
      JpegChromaType.jpegYUV420 :=
  CheckAndInitialize_accepts acceptingEnv freshState rgbDest pic420
    rfl rfl (Or.inl rfl) rfl rfl rfl rfl (fun _ _ _ => ⟨rfl, rfl⟩)

/-! ## Claims on `UpdateInputInfo` -/

/-- C8: for every recorded chroma layout of the enumeration and every source
surface whose raw width and height are at most `2 ^ 32 - 16`,
`UpdateInputInfo` succeeds and sets the input frame width and height to the raw
width and height rounded up to the least multiple of the alignment unit of the
layout (8 for monochrome, 4:4:4, RGB, BGR and 2-sample 4:2:2; 16 for 4:2:0 and
4-sample 4:2:2). -/
theorem UpdateInputInfo_rounds_up (st : CODECHAL_JPEG_SFC_STATE)
    (sfcStateParams : MHW_SFC_STATE_PARAMS)
    (henum : isEnumeratedChroma st.ucJpegChromaType = true)
    (hw : st.pInputSurface.dwWidth ≤ 2 ^ 32 - 16)
    (hh : st.pInputSurface.dwHeight ≤ 2 ^ 32 - 16) :
    (UpdateInputInfo st sfcStateParams).1 = MOS_STATUS.MOS_STATUS_SUCCESS ∧
    (UpdateInputInfo st sfcStateParams).2.dwInputFrameWidth =
      roundUp st.pInputSurface.dwWidth (specAlignUnit st.ucJpegChromaType) ∧
    (UpdateInputInfo st sfcStateParams).2.dwInputFrameHeight =
      roundUp st.pInputSurface.dwHeight (specAlignUnit st.ucJpegChromaType) ∧
    (specAlignUnit st.ucJpegChromaType ∣ (UpdateInputInfo st sfcStateParams).2.dwInputFrameWidth ∧
      st.pInputSurface.dwWidth ≤ (UpdateInputInfo st sfcStateParams).2.dwInputFrameWidth ∧
      ∀ m, specAlignUnit st.ucJpegChromaType ∣ m → st.pInputSurface.dwWidth ≤ m →
        (UpdateInputInfo st sfcStateParams).2.dwInputFrameWidth ≤ m) ∧
    (specAlignUnit st.ucJpegChromaType ∣ (UpdateInputInfo st sfcStateParams).2.dwInputFrameHeight ∧
      st.pInputSurface.dwHeight ≤ (UpdateInputInfo st sfcStateParams).2.dwInputFrameHeight ∧
      ∀ m, specAlignUnit st.ucJpegChromaType ∣ m → st.pInputSurface.dwHeight ≤ m →
        (UpdateInputInfo st sfcStateParams).2.dwInputFrameHeight ≤ m) := by
  rw [UpdateInputInfo_of_enumerated st sfcStateParams henum]
  simp only
  rw [MOS_ALIGN_CEIL_specAlignUnit _ _ hw, MOS_ALIGN_CEIL_specAlignUnit _ _ hh]
  have lw := roundUp_least st.pInputSurface.dwWidth _ (specAlignUnit_pos st.ucJpegChromaType)
  have lh := roundUp_least st.pInputSurface.dwHeight _ (specAlignUnit_pos st.ucJpegChromaType)
  exact ⟨trivial, rfl, rfl, ⟨lw.1, lw.2.1, lw.2.2.2⟩, ⟨lh.1, lh.2.1, lh.2.2.2⟩⟩

/-- C8, worked example: a raw 100 x 90 source with layout 4:2:0 gives the
input frame 112 x 96. -/
theorem UpdateInputInfo_rounds_up_witness :
    (UpdateInputInfo recorded420State blankSfcParams).1 = MOS_STATUS.MOS_STATUS_SUCCESS ∧
    (UpdateInputInfo recorded420State blankSfcParams).2.dwInputFrameWidth = 112 ∧
    (UpdateInputInfo recorded420State blankSfcParams).2.dwInputFrameHeight = 96 :=
  have h := UpdateInputInfo_rounds_up recorded420State blankSfcParams rfl
    (by decide) (by decide)
  ⟨h.1, h.2.1, h.2.2.1⟩

/-- C9: for every recorded chroma layout of the enumeration `UpdateInputInfo`
writes the ordering mode and the subsampling tag of the fixed table
(8x8 for monochrome, 2-sample 4:2:2, 4:4:4, RGB and BGR, 16x16 for 4:2:0 and
4-sample 4:2:2; 400 for monochrome, 420 for 4:2:0, 422H for both 4:2:2
variants, 444 for 4:4:4, RGB and BGR), and the ordering mode is 16x16 exactly
when the alignment unit chosen by the `switch` is 16. -/
theorem UpdateInputInfo_tags (st : CODECHAL_JPEG_SFC_STATE)
    (sfcStateParams : MHW_SFC_STATE_PARAMS)
    (henum : isEnumeratedChroma st.ucJpegChromaType = true) :
    (UpdateInputInfo st sfcStateParams).2.dwVDVEInputOrderingMode =
      specOrderingMode st.ucJpegChromaType ∧
    (UpdateInputInfo st sfcStateParams).2.dwInputChromaSubSampling =
      specSubSampling st.ucJpegChromaType ∧
    ∀ q, ∃ p1 widthAlignUnit heightAlignUnit,
      updateInputInfoSwitch st.ucJpegChromaType q
        CODECHAL_SFC_ALIGNMENT_16 CODECHAL_SFC_ALIGNMENT_16 =
          some (p1, widthAlignUnit, heightAlignUnit) ∧
      ((UpdateInputInfo st sfcStateParams).2.dwVDVEInputOrderingMode =
          MEDIASTATE_SFC_INPUT_ORDERING.MEDIASTATE_SFC_INPUT_ORDERING_VD_16x16_JPEG ↔
        widthAlignUnit = 16) ∧
      ((UpdateInputInfo st sfcStateParams).2.dwVDVEInputOrderingMode =
          MEDIASTATE_SFC_INPUT_ORDERING.MEDIASTATE_SFC_INPUT_ORDERING_VD_16x16_JPEG ↔
        heightAlignUnit = 16) := by
  rw [UpdateInputInfo_of_enumerated st sfcStateParams henum]
  refine ⟨rfl, rfl, ?_⟩
  intro q
  rcases st with ⟨surf, po, ju, c, inp⟩
  cases c
  case other raw => simp [isEnumeratedChroma] at henum
  all_goals
    refine ⟨_, _, _, rfl, ?_, ?_⟩ <;>
      simp [specOrderingMode, CODECHAL_SFC_ALIGNMENT_8, CODECHAL_SFC_ALIGNMENT_16]

/-- C9, worked example: the recorded layout 4:2:0 gives the 16x16 ordering
mode and the subsampling tag 420. -/
theorem UpdateInputInfo_tags_witness :
    (UpdateInputInfo recorded420State blankSfcParams).2.dwVDVEInputOrderingMode =
      MEDIASTATE_SFC_INPUT_ORDERING.MEDIASTATE_SFC_INPUT_ORDERING_VD_16x16_JPEG ∧
    (UpdateInputInfo recorded420State blankSfcParams).2.dwInputChromaSubSampling =
      MEDIASTATE_SFC_CHROMA_SUBSAMPLING.MEDIASTATE_SFC_CHROMA_SUBSAMPLING_420 :=
  have h := UpdateInputInfo_tags recorded420State blankSfcParams rfl
  ⟨h.1, h.2.1⟩

/-- C10: `UpdateInputInfo` returns `MOS_STATUS_UNKNOWN` exactly when the
recorded chroma layout is none of the seven enumerated ones; it returns no
other failure status; and when it fails, the input frame width and height, the
ordering mode and the subsampling tag are those from before the call. -/
theorem UpdateInputInfo_fails_iff_unlisted (st : CODECHAL_JPEG_SFC_STATE)
    (sfcStateParams : MHW_SFC_STATE_PARAMS) :
    ((UpdateInputInfo st sfcStateParams).1 = MOS_STATUS.MOS_STATUS_UNKNOWN ↔
      st.ucJpegChromaType ≠ JpegChromaType.jpegYUV400 ∧
      st.ucJpegChromaType ≠ JpegChromaType.jpegYUV420 ∧
      st.ucJpegChromaType ≠ JpegChromaType.jpegYUV422H2Y ∧
      st.ucJpegChromaType ≠ JpegChromaType.jpegYUV422H4Y ∧
      st.ucJpegChromaType ≠ JpegChromaType.jpegYUV444 ∧
      st.ucJpegChromaType ≠ JpegChromaType.jpegRGB ∧
      st.ucJpegChromaType ≠ JpegChromaType.jpegBGR) ∧
    ((UpdateInputInfo st sfcStateParams).1 ≠ MOS_STATUS.MOS_STATUS_SUCCESS ↔
      (UpdateInputInfo st sfcStateParams).1 = MOS_STATUS.MOS_STATUS_UNKNOWN) ∧
    ((UpdateInputInfo st sfcStateParams).1 = MOS_STATUS.MOS_STATUS_UNKNOWN →
      (UpdateInputInfo st sfcStateParams).2.dwInputFrameWidth =
        sfcStateParams.dwInputFrameWidth ∧
      (UpdateInputInfo st sfcStateParams).2.dwInputFrameHeight =
        sfcStateParams.dwInputFrameHeight ∧
      (UpdateInputInfo st sfcStateParams).2.dwVDVEInputOrderingMode =
        sfcStateParams.dwVDVEInputOrderingMode ∧
      (UpdateInputInfo st sfcStateParams).2.dwInputChromaSubSampling =
        sfcStateParams.dwInputChromaSubSampling) := by
  rw [← isEnumeratedChroma_eq_false_iff]
  cases henum : isEnumeratedChroma st.ucJpegChromaType
  · rw [UpdateInputInfo_of_unlisted st sfcStateParams henum]
    simp
  · rw [UpdateInputInfo_of_enumerated st sfcStateParams henum]
    simp

/-! ## Further claims on `CheckAndInitialize` -/

/-- C16: when the four conditions of the decision rule hold, the chroma layout
is enumerated, `IsSfcOutputSupported` returns true and `Initialize` returns a
failure status `s`, `CheckAndInitialize` returns exactly `s`. -/
theorem CheckAndInitialize_returns_failure_of_Initialize (env : SfcEnv)
    (st : CODECHAL_JPEG_SFC_STATE) (destSurface : MOS_SURFACE)
    (picParams : CodecDecodeJpegPicParams) (s : MOS_STATUS)
    (hsku : env.FtrSFCPipe = true)
    (hfmt : destSurface.Format = MOS_FORMAT.Format_A8R8G8B8)
    (hil : picParams.m_interleavedData = true ∨
      picParams.m_chromaType = JpegChromaType.jpegYUV400)
    (hscan : picParams.m_totalScans = 1)
    (henum : isEnumeratedChroma picParams.m_chromaType = true)
    (hsup : env.IsSfcOutputSupported (probedState env st destSurface picParams)
      (probedProcParams env st destSurface picParams) SFC_PIPE_MODE.SFC_PIPE_MODE_VDBOX = true)
    (hinit : (env.Initialize (recordedState env st destSurface picParams)
      (probedProcParams env st destSurface picParams) SFC_PIPE_MODE.SFC_PIPE_MODE_VDBOX).1 = s)
    (hfail : s ≠ MOS_STATUS.MOS_STATUS_SUCCESS) :
    (CheckAndInitialize env st destSurface picParams).1 = s := by
  have hc := (sfcOutputCondition_iff env destSurface picParams).2 ⟨hsku, hfmt, hil, hscan⟩
  rw [CheckAndInitialize_of_accepted env st destSurface picParams hc henum hsup]
  rcases hI : env.Initialize (recordedState env st destSurface picParams)
    (probedProcParams env st destSurface picParams) SFC_PIPE_MODE.SFC_PIPE_MODE_VDBOX
    with ⟨status, st3⟩
  rw [hI] at hinit
  simp only at hinit
  subst hinit
  cases status
  case MOS_STATUS_SUCCESS => exact absurd rfl hfail
  all_goals rfl

/-- C16, worked example: an initialisation failing with code 2 makes the probe
return code 2. -/
theorem CheckAndInitialize_returns_failure_of_Initialize_witness :
    (CheckAndInitialize failingInitEnv freshState rgbDest pic420).1 =
      MOS_STATUS.MOS_STATUS_OTHER 2 :=
  CheckAndInitialize_returns_failure_of_Initialize failingInitEnv freshState rgbDest pic420
    (MOS_STATUS.MOS_STATUS_OTHER 2) rfl rfl (Or.inl rfl) rfl rfl rfl rfl (by decide)

/-- C17: starting from a state with `bSfcPipeOut` false, and with an
`Initialize` that does not write `bSfcPipeOut`, the flag is true after
`CheckAndInitialize` exactly when the hardware has `FtrSFCPipe`, the
destination format is `Format_A8R8G8B8`, the source is interleaved or
monochrome, the total scan count is 1, the chroma layout is one of the seven
enumerated ones and `IsSfcOutputSupported` returns true. -/
theorem CheckAndInitialize_flag_iff (env : SfcEnv) (st : CODECHAL_JPEG_SFC_STATE)
    (destSurface : MOS_SURFACE) (picParams : CodecDecodeJpegPicParams)
    (hprior : st.bSfcPipeOut = false)
    (hframe : ∀ s p m, (env.Initialize s p m).2.bSfcPipeOut = s.bSfcPipeOut) :
    (CheckAndInitialize env st destSurface picParams).2.bSfcPipeOut = true ↔
      env.FtrSFCPipe = true ∧ destSurface.Format = MOS_FORMAT.Format_A8R8G8B8 ∧
      (picParams.m_interleavedData = true ∨
        picParams.m_chromaType = JpegChromaType.jpegYUV400) ∧
      picParams.m_totalScans = 1 ∧
      isEnumeratedChroma picParams.m_chromaType = true ∧
      env.IsSfcOutputSupported (probedState env st destSurface picParams)
        (probedProcParams env st destSurface picParams)
        SFC_PIPE_MODE.SFC_PIPE_MODE_VDBOX = true := by
  have hiff := sfcOutputCondition_iff env destSurface picParams
  cases hc : sfcOutputCondition env destSurface picParams
  · rw [CheckAndInitialize_of_not_condition env st destSurface picParams hc, sanityCheck_snd,
      hprior]
    rw [hc] at hiff
    constructor
    · intro h; exact absurd h (by decide)
    · rintro ⟨h1, h2, h3, h4, _, _⟩
      exact absurd (hiff.2 ⟨h1, h2, h3, h4⟩) (by decide)
  · have hfour := hiff.1 hc
    cases henum : isEnumeratedChroma picParams.m_chromaType
    · have hflag := createSfcInSurface_bSfcPipeOut env st destSurface picParams
      rw [henum] at hflag
      rw [CheckAndInitialize_of_unlisted env st destSurface picParams hc henum,
        sanityCheck_snd, hflag]
      simp
    · cases hsup : env.IsSfcOutputSupported (probedState env st destSurface picParams)
          (probedProcParams env st destSurface picParams) SFC_PIPE_MODE.SFC_PIPE_MODE_VDBOX
      · rw [CheckAndInitialize_of_refused env st destSurface picParams hc henum hsup,
          sanityCheck_snd]
        simp
      · rw [CheckAndInitialize_of_accepted env st destSurface picParams hc henum hsup]
        have hf := hframe (recordedState env st destSurface picParams)
          (probedProcParams env st destSurface picParams) SFC_PIPE_MODE.SFC_PIPE_MODE_VDBOX
        have hrec : (recordedState env st destSurface picParams).bSfcPipeOut = true := by
          have hflag := createSfcInSurface_bSfcPipeOut env st destSurface picParams
          rw [henum] at hflag
          exact hflag
        rw [hrec] at hf
        rcases hI : env.Initialize (recordedState env st destSurface picParams)
          (probedProcParams env st destSurface picParams) SFC_PIPE_MODE.SFC_PIPE_MODE_VDBOX
          with ⟨status, st3⟩
        rw [hI] at hf
        have hgoal : (match (status, st3) with
            | (MOS_STATUS.MOS_STATUS_SUCCESS, st3) =>
              sanityCheck { st3 with bSfcPipeOut := true } destSurface
            | (eStatus, st3) => (eStatus, st3)).2.bSfcPipeOut = true := by
          cases status
          case MOS_STATUS_SUCCESS => simp only [sanityCheck_snd]
          all_goals exact hf
        rw [hgoal]
        simp [hfour.1, hfour.2.1, hfour.2.2.1, hfour.2.2.2]

/-- C17, worked example: from the fresh object, on accepting hardware, an RGB
destination and an interleaved single-scan 4:2:0 picture set the flag. -/
theorem CheckAndInitialize_flag_iff_witness :
    freshState.bSfcPipeOut = false ∧
    (CheckAndInitialize acceptingEnv freshState rgbDest pic420).2.bSfcPipeOut = true :=
  ⟨rfl, (CheckAndInitialize_flag_iff acceptingEnv freshState rgbDest pic420 rfl
    (fun _ _ _ => rfl)).2 ⟨rfl, rfl, Or.inl rfl, rfl, rfl, rfl⟩⟩

/-- C18: for a destination in `Format_A8R8G8B8` and every state before the
call, if `CheckAndInitialize` returns `MOS_STATUS_SUCCESS` then `bSfcPipeOut`
is true after the call. -/
theorem CheckAndInitialize_success_implies_flag (env : SfcEnv)
    (st : CODECHAL_JPEG_SFC_STATE) (destSurface : MOS_SURFACE)
    (picParams : CodecDecodeJpegPicParams)
    (hfmt : destSurface.Format = MOS_FORMAT.Format_A8R8G8B8)
    (hok : (CheckAndInitialize env st destSurface picParams).1 =
      MOS_STATUS.MOS_STATUS_SUCCESS) :
    (CheckAndInitialize env st destSurface picParams).2.bSfcPipeOut = true := by
  have key : ∀ s : CODECHAL_JPEG_SFC_STATE,
      (sanityCheck s destSurface).1 = MOS_STATUS.MOS_STATUS_SUCCESS →
      (sanityCheck s destSurface).2.bSfcPipeOut = true := by
    intro s h
    rw [sanityCheck_fst_rgb s destSurface hfmt] at h
    rw [sanityCheck_snd]
    cases hb : s.bSfcPipeOut
    · rw [hb] at h; simp at h
    · rfl
  cases hc : sfcOutputCondition env destSurface picParams
  · rw [CheckAndInitialize_of_not_condition env st destSurface picParams hc] at hok ⊢
    exact key _ hok
  · cases henum : isEnumeratedChroma picParams.m_chromaType
    · rw [CheckAndInitialize_of_unlisted env st destSurface picParams hc henum] at hok ⊢
      exact key _ hok
    · cases hsup : env.IsSfcOutputSupported (probedState env st destSurface picParams)
          (probedProcParams env st destSurface picParams) SFC_PIPE_MODE.SFC_PIPE_MODE_VDBOX
      · rw [CheckAndInitialize_of_refused env st destSurface picParams hc henum hsup] at hok ⊢
        exact key _ hok
      · rw [CheckAndInitialize_of_accepted env st destSurface picParams hc henum hsup] at hok ⊢
        rcases hI : env.Initialize (recordedState env st destSurface picParams)
          (probedProcParams env st destSurface picParams) SFC_PIPE_MODE.SFC_PIPE_MODE_VDBOX
          with ⟨status, st3⟩
        rw [hI] at hok
        cases status
        case MOS_STATUS_SUCCESS => simp only [sanityCheck_snd]
        all_goals simp at hok

/-- C18, worked example: the successful probe of the RGB destination leaves the
flag set. -/
theorem CheckAndInitialize_success_implies_flag_witness :
    (CheckAndInitialize acceptingEnv freshState rgbDest pic420).1 =
      MOS_STATUS.MOS_STATUS_SUCCESS ∧
    (CheckAndInitialize acceptingEnv freshState rgbDest pic420).2.bSfcPipeOut = true :=
  ⟨by decide,
    CheckAndInitialize_success_implies_flag acceptingEnv freshState rgbDest pic420 rfl
      (by decide)⟩

/-- C19: when `CheckAndInitialize` reaches the branch that records the chroma
layout (the decision rule holds, the `if (bSfcPipeOut)` test after the `switch`
passes and `IsSfcOutputSupported` returns true) and `Initialize` leaves
`ucJpegChromaType` unchanged, the recorded layout is the one of the request,
it is one of the seven enumerated layouts, and `UpdateInputInfo` on the state
after the call succeeds, so it does not return `MOS_STATUS_UNKNOWN`. -/
theorem CheckAndInitialize_records_enumerated_layout (env : SfcEnv)
    (st : CODECHAL_JPEG_SFC_STATE) (destSurface : MOS_SURFACE)
    (picParams : CodecDecodeJpegPicParams) (sfcStateParams : MHW_SFC_STATE_PARAMS)
    (hsku : env.FtrSFCPipe = true)
    (hfmt : destSurface.Format = MOS_FORMAT.Format_A8R8G8B8)
    (hil : picParams.m_interleavedData = true ∨
      picParams.m_chromaType = JpegChromaType.jpegYUV400)
    (hscan : picParams.m_totalScans = 1)
    (hflag : (probedState env st destSurface picParams).bSfcPipeOut = true)
    (hsup : env.IsSfcOutputSupported (probedState env st destSurface picParams)
      (probedProcParams env st destSurface picParams) SFC_PIPE_MODE.SFC_PIPE_MODE_VDBOX = true)
    (hframe : ∀ s p m, (env.Initialize s p m).2.ucJpegChromaType = s.ucJpegChromaType) :
    (CheckAndInitialize env st destSurface picParams).2.ucJpegChromaType =
      picParams.m_chromaType ∧
    isEnumeratedChroma (CheckAndInitialize env st destSurface picParams).2.ucJpegChromaType =
      true ∧
    (UpdateInputInfo (CheckAndInitialize env st destSurface picParams).2 sfcStateParams).1 =
      MOS_STATUS.MOS_STATUS_SUCCESS ∧
    (UpdateInputInfo (CheckAndInitialize env st destSurface picParams).2 sfcStateParams).1 ≠
      MOS_STATUS.MOS_STATUS_UNKNOWN := by
  have hc := (sfcOutputCondition_iff env destSurface picParams).2 ⟨hsku, hfmt, hil, hscan⟩
  have henum : isEnumeratedChroma picParams.m_chromaType = true := by
    rw [← createSfcInSurface_bSfcPipeOut env st destSurface picParams]
    exact hflag
  have hrec : (CheckAndInitialize env st destSurface picParams).2.ucJpegChromaType =
      picParams.m_chromaType := by
    rw [CheckAndInitialize_of_accepted env st destSurface picParams hc henum hsup]
    have hf := hframe (recordedState env st destSurface picParams)
      (probedProcParams env st destSurface picParams) SFC_PIPE_MODE.SFC_PIPE_MODE_VDBOX
    rcases hI : env.Initialize (recordedState env st destSurface picParams)
      (probedProcParams env st destSurface picParams) SFC_PIPE_MODE.SFC_PIPE_MODE_VDBOX
      with ⟨status, st3⟩
    rw [hI] at hf
    cases status
    case MOS_STATUS_SUCCESS =>
      simp only [sanityCheck_snd]
      exact hf
    all_goals exact hf
  have henum2 :
      isEnumeratedChroma (CheckAndInitialize env st destSurface picParams).2.ucJpegChromaType =
        true := by
    rw [hrec]; exact henum
  have hupd := UpdateInputInfo_of_enumerated
    (CheckAndInitialize env st destSurface picParams).2 sfcStateParams henum2
  refine ⟨hrec, henum2, ?_, ?_⟩
  · rw [hupd]
  · rw [hupd]; simp

/-- C19, worked example: after the accepted probe of the 4:2:0 picture,
`UpdateInputInfo` succeeds. -/
theorem CheckAndInitialize_records_enumerated_layout_witness :
    (CheckAndInitialize acceptingEnv freshState rgbDest pic420).2.ucJpegChromaType =
      JpegChromaType.jpegYUV420 ∧
    (UpdateInputInfo (CheckAndInitialize acceptingEnv freshState rgbDest pic420).2
      blankSfcParams).1 = MOS_STATUS.MOS_STATUS_SUCCESS :=
  have h := CheckAndInitialize_records_enumerated_layout acceptingEnv freshState rgbDest
    pic420 blankSfcParams rfl rfl (Or.inl rfl) rfl rfl rfl (fun _ _ _ => rfl)
  ⟨h.1, h.2.2.1⟩

/-- C20: when one of the four conditions of the decision rule fails,
`CheckAndInitialize` leaves the whole state of the object as it was
(`sSfcInSurface`, `bSfcPipeOut`, `bJpegInUse`, `ucJpegChromaType`), and it
returns `MOS_STATUS_UNKNOWN` exactly when the destination format is
`Format_A8R8G8B8` and `bSfcPipeOut` was false before the call; otherwise it
returns `MOS_STATUS_SUCCESS`. -/
theorem CheckAndInitialize_writes_nothing_of_rule_fails (env : SfcEnv)
    (st : CODECHAL_JPEG_SFC_STATE) (destSurface : MOS_SURFACE)
    (picParams : CodecDecodeJpegPicParams)
    (hrule : ¬ (env.FtrSFCPipe = true ∧ destSurface.Format = MOS_FORMAT.Format_A8R8G8B8 ∧
      (picParams.m_interleavedData = true ∨
        picParams.m_chromaType = JpegChromaType.jpegYUV400) ∧
      picParams.m_totalScans = 1)) :
    (CheckAndInitialize env st destSurface picParams).2 = st ∧
    ((CheckAndInitialize env st destSurface picParams).1 = MOS_STATUS.MOS_STATUS_UNKNOWN ↔
      destSurface.Format = MOS_FORMAT.Format_A8R8G8B8 ∧ st.bSfcPipeOut = false) ∧
    ((CheckAndInitialize env st destSurface picParams).1 ≠ MOS_STATUS.MOS_STATUS_UNKNOWN →
      (CheckAndInitialize env st destSurface picParams).1 = MOS_STATUS.MOS_STATUS_SUCCESS) := by
  have hc := (sfcOutputCondition_false_iff env destSurface picParams).2 hrule
  rw [CheckAndInitialize_of_not_condition env st destSurface picParams hc]
  refine ⟨sanityCheck_snd st destSurface, ?_, ?_⟩
  · unfold sanityCheck
    cases hb : st.bSfcPipeOut <;>
      by_cases hf : destSurface.Format = MOS_FORMAT.Format_A8R8G8B8 <;> simp [hf]
  · unfold sanityCheck
    cases hb : st.bSfcPipeOut <;>
      by_cases hf : destSurface.Format = MOS_FORMAT.Format_A8R8G8B8 <;> simp [hf]

/-- C20, worked example: a two-scan picture probed on the fresh object leaves
the object as it was and fails, the destination being RGB and the flag clear. -/
theorem CheckAndInitialize_writes_nothing_of_rule_fails_witness :
    (CheckAndInitialize acceptingEnv freshState rgbDest pic420TwoScans).2 = freshState ∧
    (CheckAndInitialize acceptingEnv freshState rgbDest pic420TwoScans).1 =
      MOS_STATUS.MOS_STATUS_UNKNOWN :=
  have h := CheckAndInitialize_writes_nothing_of_rule_fails acceptingEnv freshState rgbDest
    pic420TwoScans (by decide)
  ⟨h.1, h.2.1.2 ⟨rfl, rfl⟩⟩

end JpegSfc

namespace vp

open JpegSfc (MOS_STATUS)

/-! ## Lemmas on the configuration calls -/

theorem ownFlag_eq_false_of_caps (c : ConfigCall)
    (h : c.caps.bSfcCsc = false ∧ c.caps.bSfcRotMir = false ∧ c.caps.bSfcScaling = false) :
    c.ownFlag = false := by
  cases c
  · exact h.1
  · exact h.2.1
  · exact h.2.2

/-- A call whose own flag is false returns success and leaves the object as it
is, whatever the class of the object. -/
theorem configCall_of_flag_false (cr : VpParameterCreators) (f : HwFilter) (c : ConfigCall)
    (h : c.ownFlag = false) :
    configCall cr f c = (MOS_STATUS.MOS_STATUS_SUCCESS, f) := by
  rcases f with ⟨cls, params, caps⟩
  cases c <;> cases cls <;>
    simp [configCall, ConfigCscParam, ConfigRotMirParam, ConfigScalingParam,
      HwFilter_ConfigCscParam, HwFilter_ConfigRotMirParam, HwFilter_ConfigScalingParam,
      HwFilterVebox_ConfigCscParam, HwFilterVebox_ConfigRotMirParam,
      HwFilterVebox_ConfigScalingParam, HwFilterSfc_ConfigCscParam,
      HwFilterSfc_ConfigRotMirParam, HwFilterSfc_ConfigScalingParam,
      HwFilterRender_ConfigCscParam, HwFilterRender_ConfigRotMirParam,
      HwFilterRender_ConfigScalingParam, ConfigCall.ownFlag] at h ⊢ <;>
    simp [h]

/-- A call on an object that is not an `HwFilterSfc` returns success and leaves
the object as it is. -/
theorem configCall_of_not_sfc (cr : VpParameterCreators) (f : HwFilter) (c : ConfigCall)
    (h : f.cls ≠ HwFilterClass.HwFilterSfc) :
    configCall cr f c = (MOS_STATUS.MOS_STATUS_SUCCESS, f) := by
  rcases f with ⟨cls, params, caps⟩
  cases c <;> cases cls <;>
    first
    | rfl
    | exact absurd rfl h

/-- An active call on an `HwFilterSfc` whose constructor returns an object
appends it. -/
theorem configCall_sfc_created (cr : VpParameterCreators) (f : HwFilter) (c : ConfigCall)
    (q : VpPacketParameter) (hcls : f.cls = HwFilterClass.HwFilterSfc)
    (hflag : c.ownFlag = true) (hcreate : c.create cr = some q) :
    configCall cr f c = (MOS_STATUS.MOS_STATUS_SUCCESS, pushParam f q) := by
  rcases f with ⟨cls, params, caps⟩
  simp only at hcls
  subst hcls
  cases c <;>
    simp [configCall, ConfigCscParam, ConfigRotMirParam, ConfigScalingParam,
      HwFilterSfc_ConfigCscParam, HwFilterSfc_ConfigRotMirParam,
      HwFilterSfc_ConfigScalingParam, ConfigCall.ownFlag, ConfigCall.create] at hflag hcreate ⊢ <;>
    simp [hflag, hcreate]

/-- An active call on an `HwFilterSfc` whose constructor returns null fails
and leaves the object as it is. -/
theorem configCall_sfc_null (cr : VpParameterCreators) (f : HwFilter) (c : ConfigCall)
    (hcls : f.cls = HwFilterClass.HwFilterSfc)
    (hflag : c.ownFlag = true) (hcreate : c.create cr = none) :
    configCall cr f c = (MOS_STATUS.MOS_STATUS_NULL_POINTER, f) := by
  rcases f with ⟨cls, params, caps⟩
  simp only at hcls
  subst hcls
  cases c <;>
    simp [configCall, ConfigCscParam, ConfigRotMirParam, ConfigScalingParam,
      HwFilterSfc_ConfigCscParam, HwFilterSfc_ConfigRotMirParam,
      HwFilterSfc_ConfigScalingParam, ConfigCall.ownFlag, ConfigCall.create,
      VP_PUBLIC_CHK_NULL_RETURN_status] at hflag hcreate ⊢ <;>
    simp [hflag, hcreate]

/-- The status of a call is not success exactly in the null case, and then the
object is left as it is. -/
theorem configCall_failure (cr : VpParameterCreators) (f : HwFilter) (c : ConfigCall)
    (hfail : (configCall cr f c).1 ≠ MOS_STATUS.MOS_STATUS_SUCCESS) :
    (f.cls = HwFilterClass.HwFilterSfc ∧ c.ownFlag = true ∧ c.create cr = none) ∧
    configCall cr f c = (MOS_STATUS.MOS_STATUS_NULL_POINTER, f) := by
  by_cases hcls : f.cls = HwFilterClass.HwFilterSfc
  · cases hflag : c.ownFlag
    · rw [configCall_of_flag_false cr f c hflag] at hfail
      exact absurd rfl hfail
    · cases hcreate : c.create cr with
      | none => exact ⟨⟨hcls, rfl, rfl⟩, configCall_sfc_null cr f c hcls hflag hcreate⟩
      | some q =>
        rw [configCall_sfc_created cr f c q hcls hflag hcreate] at hfail
        exact absurd rfl hfail
  · rw [configCall_of_not_sfc cr f c hcls] at hfail
    exact absurd rfl hfail

theorem pushParam_cls (f : HwFilter) (q : VpPacketParameter) : (pushParam f q).cls = f.cls := rfl

theorem pushParam_Params (f : HwFilter) (q : VpPacketParameter) :
    (pushParam f q).m_Params.Params = f.m_Params.Params ++ [q] := rfl

/-! ## Claims on the configuration calls -/

/-- C11: for a filter of any class (`HwFilter`, `HwFilterVebox`, `HwFilterSfc`,
`HwFilterRender`) and any finite sequence of `ConfigCscParam` /
`ConfigRotMirParam` / `ConfigScalingParam` calls whose capability flags
`bSfcCsc`, `bSfcRotMir` and `bSfcScaling` are all false, every call returns
success and the filter, with its pending parameter list, is unchanged; so a
list that was empty before the calls is empty after them. -/
theorem configCalls_all_flags_false (cr : VpParameterCreators) (f : HwFilter)
    (calls : List ConfigCall)
    (hcaps : ∀ c ∈ calls,
      c.caps.bSfcCsc = false ∧ c.caps.bSfcRotMir = false ∧ c.caps.bSfcScaling = false) :
    (configCalls cr f calls).1.length = calls.length ∧
    (∀ s ∈ (configCalls cr f calls).1, s = MOS_STATUS.MOS_STATUS_SUCCESS) ∧
    (configCalls cr f calls).2 = f ∧
    (configCalls cr f calls).2.m_Params.Params = f.m_Params.Params ∧
    (f.m_Params.Params = [] → (configCalls cr f calls).2.m_Params.Params = []) := by
  have main : (configCalls cr f calls).1.length = calls.length ∧
      (∀ s ∈ (configCalls cr f calls).1, s = MOS_STATUS.MOS_STATUS_SUCCESS) ∧
      (configCalls cr f calls).2 = f := by
    induction calls with
    | nil => simp [configCalls]
    | cons c rest ih =>
      have hc := configCall_of_flag_false cr f c
        (ownFlag_eq_false_of_caps c (hcaps c (List.mem_cons_self c rest)))
      have ih2 := ih (fun d hd => hcaps d (List.mem_cons_of_mem c hd))
      simp only [configCalls, hc]
      refine ⟨by simp [ih2.1], ?_, ih2.2.2⟩
      intro s hs
      rcases List.mem_cons.1 hs with h | h
      · exact h
      · exact ih2.2.1 s h
  refine ⟨main.1, main.2.1, main.2.2, ?_, ?_⟩
  · rw [main.2.2]
  · intro h
    rw [main.2.2]
    exact h

/-- C11, worked example: three calls with all flags false on an SFC filter
with an empty list leave the list empty. -/
theorem configCalls_all_flags_false_witness :
    (configCalls exhaustedCreators emptySfcFilter
      [ConfigCall.csc ⟨noCaps, 1⟩, ConfigCall.rotMir ⟨noCaps, 2⟩,
        ConfigCall.scaling ⟨noCaps, 3⟩]).1 =
      [MOS_STATUS.MOS_STATUS_SUCCESS, MOS_STATUS.MOS_STATUS_SUCCESS,
        MOS_STATUS.MOS_STATUS_SUCCESS] ∧
    (configCalls exhaustedCreators emptySfcFilter
      [ConfigCall.csc ⟨noCaps, 1⟩, ConfigCall.rotMir ⟨noCaps, 2⟩,
        ConfigCall.scaling ⟨noCaps, 3⟩]).2.m_Params.Params = [] :=
  ⟨by decide,
    (configCalls_all_flags_false exhaustedCreators emptySfcFilter
      [ConfigCall.csc ⟨noCaps, 1⟩, ConfigCall.rotMir ⟨noCaps, 2⟩,
        ConfigCall.scaling ⟨noCaps, 3⟩] (by decide)).2.2.2.2 rfl⟩

/-- C12: on an `HwFilterSfc`, a call whose own capability flag is true and
whose constructor returns an object returns success and appends exactly that
object at the end of the pending list, the earlier entries and their order
unchanged; and after any sequence of calls that all return success the
pending list is the initial list followed by the objects created by the
active calls in call order, its length grown by the number of active calls. -/
theorem HwFilterSfc_active_calls_append (cr : VpParameterCreators) (f : HwFilter)
    (hcls : f.cls = HwFilterClass.HwFilterSfc) :
    (∀ (c : ConfigCall) (q : VpPacketParameter),
      c.ownFlag = true → c.create cr = some q →
      (configCall cr f c).1 = MOS_STATUS.MOS_STATUS_SUCCESS ∧
      (configCall cr f c).2.m_Params.Params = f.m_Params.Params ++ [q]) ∧
    (∀ calls : List ConfigCall,
      (∀ s ∈ (configCalls cr f calls).1, s = MOS_STATUS.MOS_STATUS_SUCCESS) →
      (configCalls cr f calls).2.m_Params.Params =
        f.m_Params.Params ++ calls.filterMap (ConfigCall.created cr) ∧
      (configCalls cr f calls).2.m_Params.Params.length =
        f.m_Params.Params.length + (calls.filter ConfigCall.ownFlag).length) := by
  constructor
  · intro c q hflag hcreate
    rw [configCall_sfc_created cr f c q hcls hflag hcreate]
    exact ⟨rfl, rfl⟩
  · intro calls
    induction calls generalizing f with
    | nil => intro _; simp [configCalls]
    | cons c rest ih =>
      intro hall
      simp only [configCalls] at hall ⊢
      have hhead : (configCall cr f c).1 = MOS_STATUS.MOS_STATUS_SUCCESS :=
        hall _ (List.mem_cons_self _ _)
      have htail : ∀ s ∈ (configCalls cr (configCall cr f c).2 rest).1,
          s = MOS_STATUS.MOS_STATUS_SUCCESS :=
        fun s hs => hall s (List.mem_cons_of_mem _ hs)
      cases hflag : c.ownFlag
      · have hc := configCall_of_flag_false cr f c hflag
        rw [hc] at htail ⊢
        have ih2 := ih f hcls htail
        have hcr : ConfigCall.created cr c = none := by simp [ConfigCall.created, hflag]
        refine ⟨?_, ?_⟩
        · rw [List.filterMap_cons_none hcr]
          exact ih2.1
        · have hfil : (c :: rest).filter ConfigCall.ownFlag = rest.filter ConfigCall.ownFlag := by
            simp [List.filter, hflag]
          rw [hfil]
          exact ih2.2
      · cases hcreate : c.create cr with
        | none =>
          rw [configCall_sfc_null cr f c hcls hflag hcreate] at hhead
          simp at hhead
        | some q =>
          have hc := configCall_sfc_created cr f c q hcls hflag hcreate
          rw [hc] at htail ⊢
          have ih2 := ih (pushParam f q) hcls htail
          simp only [pushParam_Params] at ih2
          have hcr : ConfigCall.created cr c = some q := by
            simp [ConfigCall.created, hflag, hcreate]
          refine ⟨?_, ?_⟩
          · rw [List.filterMap_cons_some hcr, ih2.1]
            simp
          · have hfil : (c :: rest).filter ConfigCall.ownFlag =
                c :: rest.filter ConfigCall.ownFlag := by
              simp [List.filter, hflag]
            rw [hfil, ih2.2]
            simp
            omega

/-- C12, worked example: on an SFC filter holding the object 7, an active CSC
call, a pass-through rotation call and an active scaling call leave the list
7, 11, 13. -/
theorem HwFilterSfc_active_calls_append_witness :
    (configCalls workingCreators loadedSfcFilter
      [ConfigCall.csc ⟨allCaps, 11⟩, ConfigCall.rotMir ⟨noCaps, 12⟩,
        ConfigCall.scaling ⟨allCaps, 13⟩]).2.m_Params.Params =
      [{ handle := 7 }, { handle := 11 }, { handle := 13 }] :=
  ((HwFilterSfc_active_calls_append workingCreators loadedSfcFilter rfl).2
    [ConfigCall.csc ⟨allCaps, 11⟩, ConfigCall.rotMir ⟨noCaps, 12⟩,
      ConfigCall.scaling ⟨allCaps, 13⟩] (by decide)).1

/-- C13: a `ConfigCscParam` / `ConfigRotMirParam` / `ConfigScalingParam` call
fails exactly when the object is an `HwFilterSfc`, the capability flag of the
call is true and the parameter constructor returns null; the call then returns
the failure status of the null check and appends nothing: the object is as
before the call. -/
theorem configCall_fails_iff (cr : VpParameterCreators) (f : HwFilter) (c : ConfigCall) :
    ((configCall cr f c).1 ≠ MOS_STATUS.MOS_STATUS_SUCCESS ↔
      f.cls = HwFilterClass.HwFilterSfc ∧ c.ownFlag = true ∧ c.create cr = none) ∧
    ((configCall cr f c).1 ≠ MOS_STATUS.MOS_STATUS_SUCCESS →
      (configCall cr f c).1 = MOS_STATUS.MOS_STATUS_NULL_POINTER ∧
      (configCall cr f c).2 = f ∧
      (configCall cr f c).2.m_Params.Params = f.m_Params.Params) := by
  constructor
  · constructor
    · intro h
      exact (configCall_failure cr f c h).1
    · rintro ⟨hcls, hflag, hcreate⟩
      rw [configCall_sfc_null cr f c hcls hflag hcreate]
      simp
  · intro h
    have h2 := (configCall_failure cr f c h).2
    rw [h2]
    exact ⟨rfl, rfl, rfl⟩

/-- C14, counterexample: an `HwFilterSfc` holding one pending parameter, on
which an active `ConfigCscParam` call fails because the constructor returns
null, still holds that parameter after the call. -/
theorem ConfigCscParam_failure_keeps_pending_counterexample :
    (ConfigCscParam exhaustedCreators loadedSfcFilter ⟨allCaps, 1⟩).1 ≠
      MOS_STATUS.MOS_STATUS_SUCCESS ∧
    (ConfigCscParam exhaustedCreators loadedSfcFilter ⟨allCaps, 1⟩).2.m_Params.Params =
      [{ handle := 7 }] ∧
    (ConfigCscParam exhaustedCreators loadedSfcFilter ⟨allCaps, 1⟩).2.m_Params.Params ≠ [] := by
  decide

/-- C14, amended: a failed `ConfigCscParam` / `ConfigRotMirParam` /
`ConfigScalingParam` call leaves the pending parameter list exactly as it was
before the call: nothing is appended and nothing is discarded, so the list is
empty after the call only if it was empty before. -/
theorem configCall_failure_keeps_pending (cr : VpParameterCreators) (f : HwFilter)
    (c : ConfigCall)
    (hfail : (configCall cr f c).1 ≠ MOS_STATUS.MOS_STATUS_SUCCESS) :
    (configCall cr f c).2.m_Params.Params = f.m_Params.Params ∧
    ((configCall cr f c).2.m_Params.Params = [] ↔ f.m_Params.Params = []) := by
  have h2 := (configCall_failure cr f c hfail).2
  rw [h2]
  exact ⟨rfl, Iff.rfl⟩

/-- C14, worked example of the amended claim: the failed call on the filter
holding the object 7 leaves the list holding the object 7. -/
theorem configCall_failure_keeps_pending_witness :
    (configCall exhaustedCreators loadedSfcFilter (ConfigCall.csc ⟨allCaps, 1⟩)).1 ≠
      MOS_STATUS.MOS_STATUS_SUCCESS ∧
    (configCall exhaustedCreators loadedSfcFilter
      (ConfigCall.csc ⟨allCaps, 1⟩)).2.m_Params.Params = loadedSfcFilter.m_Params.Params :=
  ⟨by decide,
    (configCall_failure_keeps_pending exhaustedCreators loadedSfcFilter
      (ConfigCall.csc ⟨allCaps, 1⟩) (by decide)).1⟩

/-! ## Claims on the factory -/

/-- C15: for every engine type `E` that has a free-list (Vebox, Sfc, Render)
and every factory state that satisfies the pool invariant, releasing a filter
of type `E` with `ReturnHwFilter` and then acquiring with `GetHwFilter` for
type `E` pops the front of the free-list of `E` (the queue before the release
followed by the released filter), and the instance handed out has engine type
`E` and an empty pending parameter list; the release touches no free-list of
another engine type, and the pool invariant holds after both steps. -/
theorem ReturnHwFilter_then_GetHwFilter (fac : HwFilterFactory) (f : HwFilter)
    (E : EngineType) (caps : VP_EXECUTE_CAPS)
    (hwf : PoolsWellFormed fac)
    (hE : GetEngineType f = E)
    (hvalid : E ≠ EngineType.EngineTypeInvalid) :
    poolOf (ReturnHwFilter fac f) E = poolOf fac E ++ [Clean f] ∧
    (∀ E2, E2 ≠ E → poolOf (ReturnHwFilter fac f) E2 = poolOf fac E2) ∧
    (∃ g rest,
      poolOf fac E ++ [Clean f] = g :: rest ∧
      (GetHwFilter (ReturnHwFilter fac f) { Type_ := E, vpExecuteCaps := caps }).1 = some g ∧
      poolOf (GetHwFilter (ReturnHwFilter fac f) { Type_ := E, vpExecuteCaps := caps }).2 E =
        rest ∧
      (∀ E2, E2 ≠ E →
        poolOf (GetHwFilter (ReturnHwFilter fac f) { Type_ := E, vpExecuteCaps := caps }).2 E2 =
          poolOf fac E2) ∧
      GetEngineType g = E ∧
      g.m_Params.Params = []) ∧
    PoolsWellFormed (ReturnHwFilter fac f) ∧
    PoolsWellFormed
      (GetHwFilter (ReturnHwFilter fac f) { Type_ := E, vpExecuteCaps := caps }).2 := by
  have hclean : GetEngineType (Clean f) = E ∧ (Clean f).m_Params.Params = [] := ⟨hE, rfl⟩
  have hpush : poolOf (ReturnHwFilter fac f) E = poolOf fac E ++ [Clean f] := by
    unfold ReturnHwFilter
    rw [hE]
    cases E
    · exact absurd rfl hvalid
    all_goals rfl
  have hothers : ∀ E2, E2 ≠ E → poolOf (ReturnHwFilter fac f) E2 = poolOf fac E2 := by
    intro E2 hne
    unfold ReturnHwFilter
    rw [hE]
    cases E <;> cases E2 <;> first | rfl | exact absurd rfl hne
  have hwf1 : PoolsWellFormed (ReturnHwFilter fac f) := by
    intro E2 g hg
    by_cases hne : E2 = E
    · subst hne
      rw [hpush] at hg
      rcases List.mem_append.1 hg with h | h
      · exact hwf _ g h
      · rw [List.mem_singleton.1 h]
        exact hclean
    · rw [hothers E2 hne] at hg
      exact hwf E2 g hg
  have hget : ∀ (fc : HwFilterFactory) (g : HwFilter) (rest : List HwFilter),
      poolOf fc E = g :: rest →
      (GetHwFilter fc { Type_ := E, vpExecuteCaps := caps }).1 = some g ∧
      poolOf (GetHwFilter fc { Type_ := E, vpExecuteCaps := caps }).2 E = rest ∧
      ∀ E2, E2 ≠ E →
        poolOf (GetHwFilter fc { Type_ := E, vpExecuteCaps := caps }).2 E2 = poolOf fc E2 := by
    intro fc g rest hpool
    rcases fc with ⟨pv, ps, pr⟩
    cases E
    · exact absurd rfl hvalid
    all_goals
      simp only [poolOf] at hpool
      subst hpool
      refine ⟨rfl, rfl, ?_⟩
      intro E2 hne
      cases E2 <;> first | rfl | exact absurd rfl hne
  have hne_nil : poolOf fac E ++ [Clean f] ≠ [] := by simp
  rcases hsplit : poolOf fac E ++ [Clean f] with _ | ⟨g, rest⟩
  · exact absurd hsplit hne_nil
  · have hpool1 : poolOf (ReturnHwFilter fac f) E = g :: rest := by rw [hpush, hsplit]
    have hg := hget (ReturnHwFilter fac f) g rest hpool1
    have hgwf := hwf1 E g (by rw [hpool1]; exact List.mem_cons_self g rest)
    refine ⟨hpool1, hothers, ⟨g, rest, rfl, hg.1, hg.2.1, ?_, hgwf.1, hgwf.2⟩, hwf1, ?_⟩
    · intro E2 hne
      rw [hg.2.2 E2 hne, hothers E2 hne]
    · intro E2 h2 hmem
      by_cases hne : E2 = E
      · subst hne
        rw [hg.2.1] at hmem
        exact hwf1 _ h2 (by rw [hpool1]; exact List.mem_cons_of_mem g hmem)
      · rw [hg.2.2 E2 hne] at hmem
        exact hwf1 E2 h2 hmem

/-- C15, worked example: an SFC filter holding one pending parameter is
released into the empty factory and an SFC filter is acquired: the instance
handed out is that filter, of engine type Sfc, its pending list empty. -/
theorem ReturnHwFilter_then_GetHwFilter_witness :
    PoolsWellFormed emptyFactory ∧
    (GetHwFilter (ReturnHwFilter emptyFactory loadedSfcFilter)
      { Type_ := EngineType.EngineTypeSfc, vpExecuteCaps := noCaps }).1 =
        some (Clean loadedSfcFilter) ∧
    poolOf (ReturnHwFilter emptyFactory loadedSfcFilter) EngineType.EngineTypeVebox = [] ∧
    poolOf (ReturnHwFilter emptyFactory loadedSfcFilter) EngineType.EngineTypeRender = [] :=
  have hwf : PoolsWellFormed emptyFactory := by
    intro E g hg
    cases E <;> simp [poolOf, emptyFactory] at hg
  have h := ReturnHwFilter_then_GetHwFilter emptyFactory loadedSfcFilter
    EngineType.EngineTypeSfc noCaps hwf rfl (by decide)
  ⟨hwf, by decide, h.2.1 EngineType.EngineTypeVebox (by decide),
    h.2.1 EngineType.EngineTypeRender (by decide)⟩

end vp
